import Mathlib

/-!
Verification development for the pgrollback PostgreSQL proxy.

This file shallowly embeds the session / savepoint engine of the repository:

* `internal/proxy/session_db.go` — `realSessionDB`, its savepoint-level
  bookkeeping, TCL rewriters (`handleBegin` / `handleCommit` /
  `handleRollback`), execution guards (`SafeExec`, `SafeExecTCL`,
  `SafeQuery`), base-transaction lifecycle (`beginTx`, `rollbackTx`,
  `startNewTx`, `close`), and `RollbackUserSavepointsOnDisconnect`;
* `internal/proxy/connection.go` — `proxyConnection`, its user-transaction
  counter, and `ApplyTCLSuccessTracking`;
* `internal/proxy/tx_guard.go` — `execQuerySafeSavepoint`;
* `internal/proxy/query_history.go` — `isInternalNoiseQuery`, `SetLastQuery`;
* `pkg/protocol` (`ExtractTestID`) and the AST predicates of `pkg/sql`.

Go strings are modelled as Lean `String` manipulated through explicit
`List Char` helpers (all inputs of interest are ASCII, so byte-wise and
character-wise processing agree).  Machine integers (`int`) are modelled as
`Int`.  The external `pg_query_go` parser is modelled by a small classifier
that recognises exactly the statement forms the proxy itself generates and
filters (savepoint commands, transaction control, DEALLOCATE, SELECT and
common DML prefixes); every other input is a parse failure, which sends the
Go code to its string fallback exactly as a real parse error would.

Interactions with the real PostgreSQL backend are modelled by an oracle
(`Orc`) choosing success or failure of each backend call, an abstract
backend state (`Backend`, tracking whether the current transaction scope is
aborted), and an event trace (`Event`) that records which transaction
object every backend call was issued on: the base transaction, an inner
guard savepoint, or the raw connection.
-/

namespace PgRollback

/-- Space test used by the trimming helpers (ASCII whitespace, mirroring
`strings.TrimSpace` on the ASCII inputs the proxy handles). -/
def isSpaceChar (c : Char) : Bool :=
  c = ' ' || c = '\t' || c = '\n' || c = '\r'

/-- Decimal-digit test, mirroring `unicode.IsDigit` on ASCII. -/
def isDigitChar (c : Char) : Bool :=
  48 ≤ c.toNat && c.toNat ≤ 57

/-- Character-level ASCII upper-casing (mirrors `strings.ToUpper` on the
ASCII SQL keywords involved). -/
def toUpperChar (c : Char) : Char :=
  if 97 ≤ c.toNat && c.toNat ≤ 122 then Char.ofNat (c.toNat - 32) else c

/-- Trim ASCII whitespace from both ends of a character list. -/
def trimChars (l : List Char) : List Char :=
  ((l.dropWhile isSpaceChar).reverse.dropWhile isSpaceChar).reverse

/-- Model of Go `strings.TrimSpace`. -/
def trimS (s : String) : String :=
  String.mk (trimChars s.data)

/-- Model of Go `strings.ToUpper`. -/
def upperS (s : String) : String :=
  String.mk (s.data.map toUpperChar)

/-- Model of Go `strings.HasPrefix`. -/
def hasPfxS (s p : String) : Bool :=
  p.data.isPrefixOf s.data

/-- Case-insensitive keyword test: does `s` start with `p` up to ASCII case? -/
def hasPfxCI (s p : String) : Bool :=
  p.data.isPrefixOf (s.data.map toUpperChar)

/-- First index at which `sub` occurs in `l`, mirroring `strings.Index`. -/
def findSub : List Char → List Char → Option Nat
  | [], sub => if sub.isEmpty then some 0 else none
  | c :: t, sub =>
    if sub.isPrefixOf (c :: t) then some 0
    else (findSub t sub).map (· + 1)

/-- Model of Go `strings.Contains`. -/
def containsSub (s sub : String) : Bool :=
  (findSub s.data sub.data).isSome

/-- Drop the first `n` characters of a string. -/
def dropS (s : String) (n : Nat) : String :=
  String.mk (s.data.drop n)

/-- Decimal digit character for a value below ten. -/
def natDigitChar (n : Nat) : Char := Char.ofNat (48 + n)

/-- Decimal digits of a natural number, with explicit recursion fuel (any
fuel above the digit count yields the full decimal representation). -/
def natDigitsFuel : Nat → Nat → List Char
  | 0, _ => []
  | fuel + 1, n =>
    if n < 10 then [natDigitChar n]
    else natDigitsFuel fuel (n / 10) ++ [natDigitChar (n % 10)]

/-- Decimal representation of a natural number (model of Go `%d`). -/
def natDec (n : Nat) : String := String.mk (natDigitsFuel (n + 1) n)

/-- Decimal representation of an integer (model of Go `%d` on `int`). -/
def intDec (i : Int) : String :=
  if i < 0 then "-" ++ natDec (-i).toNat else natDec i.toNat

/-- Every character is a plain SQL identifier character (letter, digit,
underscore or dollar).  Used to decide whether a savepoint / statement name
would be accepted by the real parser. -/
def isIdentChars (l : List Char) : Bool :=
  l.all fun c =>
    (97 ≤ c.toNat && c.toNat ≤ 122) || (65 ≤ c.toNat && c.toNat ≤ 90) ||
    (48 ≤ c.toNat && c.toNat ≤ 57) || c = '_' || c = '$'

/-! ## Model of the `pkg/sql` statement classification

`pkg/sql` (part_000) classifies statements through the external
`pg_query_go/v5` parser.  The proxy only ever inspects the *kind* of each
statement (savepoint / release / rollback-to / plain rollback / deallocate),
so the model keeps exactly that information. -/

/-- Statement kinds distinguished by the `pkg/sql` helpers the proxy calls
(`IsSavepoint`, `IsReleaseSavepoint`, `IsRollbackToSavepoint`,
`IsTransactionRollback`, `IsDeallocateNoise`). -/
inductive Stmt where
  | savepointStmt (name : String)
  | releaseStmt (name : String)
  | rollbackToStmt (name : String)
  | rollbackStmt
  | beginStmt
  | commitStmt
  | deallocateStmt (name : String)
  | selectStmt
  | otherStmt
deriving DecidableEq

/-- Split a character list on semicolons (the statement separator in the SQL
the proxy generates; none of those strings contain quoted semicolons). -/
def splitSemiAux : List Char → List Char → List (List Char)
  | [], acc => [acc.reverse]
  | c :: rest, acc =>
    if c = ';' then acc.reverse :: splitSemiAux rest []
    else splitSemiAux rest (c :: acc)

/-- Parse one semicolon-separated piece into a statement kind.  Models the
external `pg_query` parser on the statement forms the proxy generates and
filters; anything else is a parse failure (`none`), which routes the Go code
to its string fallback exactly as a real parse error would. -/
def parseOne (piece : String) : Option Stmt :=
  let t := trimS piece
  let u := upperS t
  if hasPfxCI t "ROLLBACK TO SAVEPOINT " then
    let name := trimS (dropS t 22)
    if name ≠ "" ∧ isIdentChars name.data = true then some (.rollbackToStmt name) else none
  else if hasPfxCI t "RELEASE SAVEPOINT " then
    let name := trimS (dropS t 18)
    if name ≠ "" ∧ isIdentChars name.data = true then some (.releaseStmt name) else none
  else if hasPfxCI t "SAVEPOINT " then
    let name := trimS (dropS t 10)
    if name ≠ "" ∧ isIdentChars name.data = true then some (.savepointStmt name) else none
  else if u = "ROLLBACK" then some .rollbackStmt
  else if u = "BEGIN" ∨ u = "START TRANSACTION" then some .beginStmt
  else if u = "COMMIT" then some .commitStmt
  else if hasPfxCI t "DEALLOCATE " then
    let name := trimS (dropS t 11)
    if upperS name = "ALL" then some (.deallocateStmt "")
    else if name ≠ "" ∧ isIdentChars name.data = true then some (.deallocateStmt name)
    else none
  else if hasPfxCI t "SELECT" then some .selectStmt
  else if hasPfxCI t "INSERT " ∨ hasPfxCI t "UPDATE " ∨ hasPfxCI t "DELETE " ∨
          hasPfxCI t "SET " ∨ hasPfxCI t "CREATE " ∨ hasPfxCI t "DROP " then
    some .otherStmt
  else none

/-- Collect the results of parsing each piece; a single failing piece fails
the whole parse (as `pg_query.Parse` does). -/
def parsePieces : List String → Option (List Stmt)
  | [] => some []
  | p :: rest =>
    match parseOne p, parsePieces rest with
    | some st, some sts => some (st :: sts)
    | _, _ => none

/-- Model of `sqlpkg.ParseStatements`: split on semicolons, drop empty and
comment-only pieces (the real parser produces no statement for them), parse
each remaining piece.  Returns `none` on parse failure. -/
def ParseStatements (sql : String) : Option (List Stmt) :=
  let pieces := (splitSemiAux sql.data []).map (fun l => trimS (String.mk l))
  let pieces := pieces.filter (fun p => p ≠ "" ∧ hasPfxS p "--" = false)
  parsePieces pieces

/-- Mirror of `sqlpkg.IsSavepoint`. -/
def IsSavepoint : Stmt → Bool
  | .savepointStmt _ => true
  | _ => false

/-- Mirror of `sqlpkg.IsReleaseSavepoint`. -/
def IsReleaseSavepoint : Stmt → Bool
  | .releaseStmt _ => true
  | _ => false

/-- Mirror of `sqlpkg.IsRollbackToSavepoint`. -/
def IsRollbackToSavepoint : Stmt → Bool
  | .rollbackToStmt _ => true
  | _ => false

/-- Mirror of `sqlpkg.IsTransactionRollback` (plain ROLLBACK only). -/
def IsTransactionRollback : Stmt → Bool
  | .rollbackStmt => true
  | _ => false

/-- Mirror of `sqlpkg.IsDeallocateNoise`. -/
def IsDeallocateNoise : Stmt → Bool
  | .deallocateStmt _ => true
  | _ => false

/-! ## Errors

Go errors are modelled as a small tree: a plain message (`errors.New` /
`fmt.Errorf` without `%w`), a wrapping (`fmt.Errorf` with `%w`), and a join
(`errors.Join`).  Propagation of an original backend error is then visible
as that error value sitting inside the returned tree. -/

/-- Model of a Go `error` value with wrapping and joining. -/
inductive Err where
  | msg (s : String)
  | wrap (s : String) (inner : Err)
  | join (a b : Err)
deriving DecidableEq

instance {ε α : Type} [DecidableEq ε] [DecidableEq α] : DecidableEq (Except ε α) := fun a b =>
  match a, b with
  | .ok x, .ok y =>
    if h : x = y then isTrue (by rw [h]) else isFalse (by simp [h])
  | .error x, .error y =>
    if h : x = y then isTrue (by rw [h]) else isFalse (by simp [h])
  | .ok _, .error _ => isFalse (by simp)
  | .error _, .ok _ => isFalse (by simp)

/-- Mirror of `ErrOnlyOneTransactionAtATime` (session_db.go). -/
def ErrOnlyOneTransactionAtATime : Err :=
  .msg "only one transaction could start a transaction at a time on our pgrollback"

/-- Mirror of `ErrNoOpenUserTransaction` (connection.go). -/
def ErrNoOpenUserTransaction : Err :=
  .msg "there is no open transaction on this connection"

/-- Backend error reported by PostgreSQL when a command is issued inside an
aborted transaction scope. -/
def abortedTxErr : Err :=
  .msg "current transaction is aborted, commands ignored until end of transaction block"

/-! ## Session state (`realSessionDB`, session_db.go) -/

/-- One query-history item (`QueryHistoryEntry`, query_history.go).  `At`
models `time.Now()` as an abstract tick supplied by the caller. -/
structure QueryHistoryEntry where
  Query : String
  At : Nat
  Duration : String
deriving DecidableEq

/-- Mirror of `maxQueryHistory` (query_history.go). -/
def maxQueryHistory : Nat := 100

/-- State of `realSessionDB` (session_db.go): whether the raw connection
exists (`conn != nil`), whether the base transaction is open (`tx != nil`),
the savepoint level, the connection id holding the open-user-transaction
claim (`0` when none), and the query history.  The mutex only serializes
access and is not part of the sequential model. -/
structure RealSessionDB where
  hasConn : Bool
  tx : Bool
  SavepointLevel : Int
  connectionWithOpenTx : Nat
  queryHistory : List QueryHistoryEntry
deriving DecidableEq

/-- Mirror of `newSessionDB` (session_db.go): all fields other than the
connection and transaction are zero-valued. -/
def newSessionDB (conn tx : Bool) : RealSessionDB :=
  { hasConn := conn, tx := tx, SavepointLevel := 0,
    connectionWithOpenTx := 0, queryHistory := [] }

/-- Mirror of `DEFAULT_SELECT_ONE` (interceptors.go): the synthesized no-op
marker returned instead of backend SQL. -/
def DEFAULT_SELECT_ONE : String := "-- ping"

/-- Mirror of `GetSavepointName`: the name for the current savepoint level,
`fmt.Sprintf("pgrollback_v_%d", d.SavepointLevel)`. -/
def RealSessionDB.GetSavepointName (d : RealSessionDB) : String :=
  "pgrollback_v_" ++ intDec d.SavepointLevel

/-- Mirror of `GetNextSavepointName`: the name for the next savepoint level
without incrementing. -/
def RealSessionDB.GetNextSavepointName (d : RealSessionDB) : String :=
  "pgrollback_v_" ++ intDec (d.SavepointLevel + 1)

/-- Mirror of `IncrementSavepointLevel`. -/
def RealSessionDB.IncrementSavepointLevel (d : RealSessionDB) : RealSessionDB :=
  { d with SavepointLevel := d.SavepointLevel + 1 }

/-- Mirror of `DecrementSavepointLevel` / `decrementSavepointLevelLocked`:
no-op when the level is already `0`. -/
def RealSessionDB.DecrementSavepointLevel (d : RealSessionDB) : RealSessionDB :=
  if d.SavepointLevel > 0 then { d with SavepointLevel := d.SavepointLevel - 1 } else d

/-- Mirror of `hasOpenUserTransaction`. -/
def RealSessionDB.hasOpenUserTransaction (d : RealSessionDB) : Bool :=
  d.connectionWithOpenTx ≠ 0

/-- Mirror of `isTransactionHeldByOtherConnection`. -/
def RealSessionDB.isTransactionHeldByOtherConnection (d : RealSessionDB) (connID : Nat) : Bool :=
  d.hasOpenUserTransaction && d.connectionWithOpenTx ≠ connID

/-- Mirror of `ClaimOpenTransaction`: fails with
`ErrOnlyOneTransactionAtATime` when a different connection already holds the
claim; otherwise records `connID` as the holder. -/
def RealSessionDB.ClaimOpenTransaction (d : RealSessionDB) (connID : Nat) :
    Except Err RealSessionDB :=
  if d.isTransactionHeldByOtherConnection connID then .error ErrOnlyOneTransactionAtATime
  else .ok { d with connectionWithOpenTx := connID }

/-- Mirror of `ReleaseOpenTransaction` / `releaseOpenTransactionLocked`:
clears the claim only when held by `connID`. -/
def RealSessionDB.ReleaseOpenTransaction (d : RealSessionDB) (connID : Nat) : RealSessionDB :=
  if d.connectionWithOpenTx = connID then { d with connectionWithOpenTx := 0 } else d

/-- Mirror of `HasActiveTransaction`. -/
def RealSessionDB.HasActiveTransaction (d : RealSessionDB) : Bool :=
  d.tx

/-- Mirror of `handleRollback` (session_db.go): with level > 0 the client
ROLLBACK is rewritten to `ROLLBACK TO SAVEPOINT cur; RELEASE SAVEPOINT cur`
without mutating any state (the source comment: level is decremented only
in `ApplyTCLSuccessTracking`); with level 0 the synthesized no-op marker is
returned.  The Go function always returns a nil error. -/
def RealSessionDB.handleRollback (d : RealSessionDB) : String :=
  if d.SavepointLevel > 0 then
    "ROLLBACK TO SAVEPOINT " ++ d.GetSavepointName ++ "; RELEASE SAVEPOINT " ++ d.GetSavepointName
  else
    DEFAULT_SELECT_ONE

/-- Mirror of `handleCommit` (session_db.go): with level > 0 the client
COMMIT is rewritten to `RELEASE SAVEPOINT cur` without mutating any state;
with level 0 the synthesized no-op marker is returned. -/
def RealSessionDB.handleCommit (d : RealSessionDB) : String :=
  if d.SavepointLevel > 0 then
    "RELEASE SAVEPOINT " ++ d.GetSavepointName
  else
    DEFAULT_SELECT_ONE

/-- Mirror of `handleBegin` (session_db.go).  Fails when there is no base
transaction; fails with `ErrOnlyOneTransactionAtATime` when a different
connection holds the claim (and `connID ≠ 0`); absorbs a nested BEGIN
(level ≥ 1) as the synthesized no-op marker; otherwise rewrites to
`SAVEPOINT next` without incrementing the level.  The intermediate
`beginTx` call is a no-op on every reachable path (the base transaction was
just checked to exist), so the state is returned unchanged. -/
def RealSessionDB.handleBegin (d : RealSessionDB) (connID : Nat) :
    Except Err (RealSessionDB × String) :=
  if ¬ d.HasActiveTransaction then
    .error (.msg "no active transaction: use BeginTx first")
  else if connID ≠ 0 ∧ d.isTransactionHeldByOtherConnection connID then
    .error ErrOnlyOneTransactionAtATime
  else if d.SavepointLevel ≥ 1 then
    .ok (d, DEFAULT_SELECT_ONE)
  else
    .ok (d, "SAVEPOINT " ++ d.GetNextSavepointName)

/-! ## Per-client connection (`proxyConnection`, connection.go) -/

/-- Mirror of `pgtestSavepointPrefix` (connection.go): the prefix that
`ApplyTCLSuccessTracking` searches queries for.  Note that the name
generator in session_db.go writes `pgrollback_v_`, a different string. -/
def pgtestSavePfx : String := "pgtest_v_"

/-- State of `proxyConnection` (connection.go): the opaque connection id
returned by `connectionID()` (a nonzero pointer value) and the count of
user-opened transactions not yet closed on this connection. -/
structure ProxyConnection where
  id : Nat
  userOpenTransactionCount : Int
deriving DecidableEq

/-- Mirror of `IncrementUserOpenTransactionCount`. -/
def ProxyConnection.IncrementUserOpenTransactionCount (p : ProxyConnection) : ProxyConnection :=
  { p with userOpenTransactionCount := p.userOpenTransactionCount + 1 }

/-- Mirror of `DecrementUserOpenTransactionCount`: returns
`ErrNoOpenUserTransaction` when the count is already ≤ 0, leaving the count
unchanged. -/
def ProxyConnection.DecrementUserOpenTransactionCount (p : ProxyConnection) :
    Except Err ProxyConnection :=
  if p.userOpenTransactionCount ≤ 0 then .error ErrNoOpenUserTransaction
  else .ok { p with userOpenTransactionCount := p.userOpenTransactionCount - 1 }

/-- Mirror of `extractSavepointNameFromQuery` (connection.go): the first
`pgtest_v_<digits>` name in the query, or `""` if none. -/
def extractSavepointNameFromQuery (query : String) : String :=
  match findSub query.data pgtestSavePfx.data with
  | none => ""
  | some i =>
    let rest := query.data.drop (i + pgtestSavePfx.length)
    String.mk (pgtestSavePfx.data ++ rest.takeWhile isDigitChar)

/-- Mirror of `ApplyTCLSuccessTracking` (connection.go), called only after a
TCL command has been successfully executed on the backend.  Returns the
updated connection, updated session db, and an optional error.  The branch
for user ROLLBACK (`ROLLBACK TO SAVEPOINT pgtest_v_N; ...`) matches the
source: its decrement / release code is commented out, so it returns with
no state change.  The nil-session guard of the source is outside the model
(both objects always exist here). -/
def ApplyTCLSuccessTracking (p : ProxyConnection) (query : String) (d : RealSessionDB) :
    ProxyConnection × RealSessionDB × Option Err :=
  let trimmed := trimS query
  let savepointName := extractSavepointNameFromQuery trimmed
  if savepointName = "" then (p, d, none)
  else if hasPfxS trimmed ("SAVEPOINT " ++ pgtestSavePfx) then
    if savepointName ≠ d.GetNextSavepointName then (p, d, none)
    else (p.IncrementUserOpenTransactionCount, d.IncrementSavepointLevel, none)
  else if containsSub query ("ROLLBACK TO SAVEPOINT " ++ pgtestSavePfx) then
    -- the name check and the decrement / release calls are commented out in
    -- the source; the branch returns nil without mutating anything
    (p, d, none)
  else if hasPfxS trimmed ("RELEASE SAVEPOINT " ++ pgtestSavePfx) then
    if savepointName ≠ d.GetSavepointName then (p, d, none)
    else
      match p.DecrementUserOpenTransactionCount with
      | .error e => (p, d, some e)
      | .ok p2 =>
        let d2 := d.DecrementSavepointLevel
        let d3 := if p2.userOpenTransactionCount = 0 then d2.ReleaseOpenTransaction p.id else d2
        (p2, d3, none)
  else (p, d, none)

/-! ## Backend model, oracle, and event trace

Every call the proxy makes to PostgreSQL is recorded as one event naming
the transaction object the call was issued on: the base transaction opened
with `conn.Begin` (whose pgx `Commit` would send COMMIT), an inner guard
savepoint opened with `tx.Begin` (whose pgx `Commit` sends RELEASE
SAVEPOINT and whose `Rollback` sends ROLLBACK TO SAVEPOINT), or the raw
connection.  The oracle `Orc` chooses the outcome of each backend call; the
abstract backend state tracks whether the current transaction scope is
aborted (a failed command aborts its innermost scope; ROLLBACK or ROLLBACK
TO SAVEPOINT clears the failure). -/

/-- One backend interaction, tagged by the transaction object it targets. -/
inductive Event where
  | baseBegin
  | baseCommit
  | baseRollback
  | spBegin
  | spCommit
  | spRollback
  | spExec (sql : String)
  | baseExec (sql : String)
  | connExec (sql : String)
  | connClose
deriving DecidableEq

/-- True exactly for a commit of the base transaction. -/
def Event.isBaseCommit : Event → Bool
  | .baseCommit => true
  | _ => false

/-- True for a commit of any transaction object (base or savepoint). -/
def Event.isCommit : Event → Bool
  | .baseCommit => true
  | .spCommit => true
  | _ => false

/-- True for any event issued on the base transaction or raw connection
(used to state that an operation touches only inner savepoints). -/
def Event.isBaseSide : Event → Bool
  | .baseBegin => true
  | .baseCommit => true
  | .baseRollback => true
  | .baseExec _ => true
  | .connExec _ => true
  | .connClose => true
  | _ => false

/-- Abstract backend session state: whether the current transaction scope
is in the aborted ("current transaction is aborted") state. -/
structure Backend where
  aborted : Bool
deriving DecidableEq

/-- Oracle choosing the outcome of the backend calls one proxy operation
makes: guard-savepoint creation, command execution, guard release (commit),
guard rollback; plus the command tag and error value the backend would
report. -/
structure Orc where
  beginOk : Bool
  execOk : Bool
  commitOk : Bool
  rollbackOk : Bool
  tag : String
  errVal : Err
deriving DecidableEq

/-- Result of one session-db operation: updated session state, updated
backend state, the backend events issued, and the Go return value. -/
abbrev OpResult (α : Type) := RealSessionDB × Backend × List Event × Except Err α

/-- Mirror of `SafeExec` (session_db.go): open an inner guard savepoint via
`d.tx.Begin`, execute the command inside it, release the guard on success
(`savePoint.Commit`), roll the guard back on failure and propagate the
original command error.  A nil base transaction is modelled as an error
(the Go code would dereference nil). -/
def RealSessionDB.SafeExec (d : RealSessionDB) (bk : Backend) (o : Orc) (sql : String) :
    OpResult String :=
  if ¬ d.tx then (d, bk, [], .error (.msg "nil transaction"))
  else if bk.aborted then
    (d, bk, [.spBegin], .error (.wrap "Falha ao iniciar savepoint de guarda" abortedTxErr))
  else if ¬ o.beginOk then
    (d, bk, [.spBegin], .error (.wrap "Falha ao iniciar savepoint de guarda" o.errVal))
  else if ¬ o.execOk then
    -- command failed: the guard scope is aborted; roll back to the guard
    if o.rollbackOk then
      (d, { bk with aborted := false }, [.spBegin, .spExec sql, .spRollback],
       .error (.wrap "Safe exec failed" o.errVal))
    else
      (d, { bk with aborted := true }, [.spBegin, .spExec sql, .spRollback],
       .error (.join (.wrap "Safe exec failed" o.errVal) (.wrap "Safe rollback failed" o.errVal)))
  else if o.commitOk then
    (d, bk, [.spBegin, .spExec sql, .spCommit], .ok o.tag)
  else if o.rollbackOk then
    (d, bk, [.spBegin, .spExec sql, .spCommit, .spRollback],
     .error (.wrap "Falha no commit de guarda" o.errVal))
  else
    (d, bk, [.spBegin, .spExec sql, .spCommit, .spRollback],
     .error (.join (.wrap "Safe exec failed" o.errVal) (.wrap "Safe rollback failed" o.errVal)))

/-- Mirror of `SafeQuery` (session_db.go): open a guard savepoint, run the
query inside it; on failure roll the guard back and propagate; on success
the guard savepoint stays open and is finalized later when the rows are
closed (`commitSavePoint`), as in the source where the commit call inside
`SafeQuery` is commented out. -/
def RealSessionDB.SafeQuery (d : RealSessionDB) (bk : Backend) (o : Orc) (sql : String) :
    OpResult String :=
  if ¬ d.tx then (d, bk, [], .error (.msg "nil transaction"))
  else if bk.aborted then
    (d, bk, [.spBegin], .error (.wrap "Falha ao iniciar savepoint de guarda" abortedTxErr))
  else if ¬ o.beginOk then
    (d, bk, [.spBegin], .error (.wrap "Falha ao iniciar savepoint de guarda" o.errVal))
  else if ¬ o.execOk then
    if o.rollbackOk then
      (d, { bk with aborted := false }, [.spBegin, .spExec sql, .spRollback],
       .error (.wrap "Falha ao executar consulta" o.errVal))
    else
      (d, { bk with aborted := true }, [.spBegin, .spExec sql, .spRollback],
       .error (.join (.wrap "Falha ao executar consulta" o.errVal) (.wrap "Falha no rollback de guarda" o.errVal)))
  else
    (d, bk, [.spBegin, .spExec sql], .ok o.tag)

/-- Mirror of `commitSavePoint` (session_db.go): commit (release) an inner
guard savepoint; a failure is fatal-logged with no further effect. -/
def commitSavePoint (d : RealSessionDB) (bk : Backend) : OpResult Unit :=
  (d, bk, [.spCommit], .ok ())

/-- Mirror of `isSavepointCommand` (session_db.go): true for `SAVEPOINT
name` (those must run on the base transaction so the savepoint survives the
guard). -/
def isSavepointCommand (query : String) : Bool :=
  match ParseStatements query with
  | some (st :: _) => IsSavepoint st
  | _ => false

/-- Mirror of `commandInvalidatesGuardOnSuccess` (session_db.go): plain
ROLLBACK, ROLLBACK TO SAVEPOINT and RELEASE SAVEPOINT consume the guard
when they succeed, so the guard must not be committed afterwards. -/
def commandInvalidatesGuardOnSuccess (query : String) : Bool :=
  match ParseStatements query with
  | some (st :: _) => IsTransactionRollback st || IsRollbackToSavepoint st || IsReleaseSavepoint st
  | _ => false

/-- Mirror of `SafeExecTCL` (session_db.go): `SAVEPOINT name` runs directly
on the base transaction; all other TCL runs inside a guard savepoint, and
when the command's success invalidates the guard (ROLLBACK / ROLLBACK TO /
RELEASE) the final guard commit is skipped. -/
def RealSessionDB.SafeExecTCL (d : RealSessionDB) (bk : Backend) (o : Orc) (sql : String) :
    OpResult String :=
  if ¬ d.tx then (d, bk, [], .error (.msg "nil transaction"))
  else if isSavepointCommand sql then
    if bk.aborted then (d, bk, [.baseExec sql], .error abortedTxErr)
    else if ¬ o.execOk then (d, { bk with aborted := true }, [.baseExec sql], .error o.errVal)
    else (d, bk, [.baseExec sql], .ok o.tag)
  else if bk.aborted then
    (d, bk, [.spBegin], .error (.wrap "Falha ao iniciar savepoint de guarda" abortedTxErr))
  else if ¬ o.beginOk then
    (d, bk, [.spBegin], .error (.wrap "Falha ao iniciar savepoint de guarda" o.errVal))
  else if ¬ o.execOk then
    if o.rollbackOk then
      (d, { bk with aborted := false }, [.spBegin, .spExec sql, .spRollback],
       .error (.wrap "Safe exec failed" o.errVal))
    else
      (d, { bk with aborted := true }, [.spBegin, .spExec sql, .spRollback],
       .error (.join (.wrap "Safe exec failed" o.errVal) (.wrap "Safe rollback failed" o.errVal)))
  else if commandInvalidatesGuardOnSuccess sql then
    (d, { bk with aborted := false }, [.spBegin, .spExec sql], .ok o.tag)
  else if o.commitOk then
    (d, bk, [.spBegin, .spExec sql, .spCommit], .ok o.tag)
  else if o.rollbackOk then
    (d, bk, [.spBegin, .spExec sql, .spCommit, .spRollback],
     .error (.wrap "Falha no commit de guarda" o.errVal))
  else
    (d, bk, [.spBegin, .spExec sql, .spCommit, .spRollback],
     .error (.join (.wrap "Safe exec failed" o.errVal) (.wrap "Safe rollback failed" o.errVal)))

/-- Mirror of `execQuerySafeSavepoint` (tx_guard.go): the guard here is an
explicitly named savepoint created, rolled back and released through SQL
`Exec` calls on the base transaction.  The deferred guard finalization
propagates only the original command error (guard failures are logged). -/
def execQuerySafeSavepoint (bk : Backend) (o : Orc) (savepointName query : String) :
    Backend × List Event × Except Err String :=
  if bk.aborted then
    ({ bk with aborted := true }, [.baseExec ("SAVEPOINT " ++ savepointName)],
     .error (.wrap "falha interna de transação" abortedTxErr))
  else if ¬ o.beginOk then
    ({ bk with aborted := true }, [.baseExec ("SAVEPOINT " ++ savepointName)],
     .error (.wrap "falha interna de transação" o.errVal))
  else if ¬ o.execOk then
    if o.rollbackOk then
      ({ bk with aborted := false },
       [.baseExec ("SAVEPOINT " ++ savepointName), .baseExec query,
        .baseExec ("ROLLBACK TO SAVEPOINT " ++ savepointName),
        .baseExec ("RELEASE SAVEPOINT " ++ savepointName)],
       .error (.wrap "falha ao executar comando" o.errVal))
    else
      ({ bk with aborted := true },
       [.baseExec ("SAVEPOINT " ++ savepointName), .baseExec query,
        .baseExec ("ROLLBACK TO SAVEPOINT " ++ savepointName)],
       .error (.wrap "falha ao executar comando" o.errVal))
  else
    (bk,
     [.baseExec ("SAVEPOINT " ++ savepointName), .baseExec query,
      .baseExec ("RELEASE SAVEPOINT " ++ savepointName)],
     .ok o.tag)

/-- Mirror of `Exec` (session_db.go): run a command directly on the base
transaction; a failed command aborts the base transaction scope. -/
def RealSessionDB.Exec (d : RealSessionDB) (bk : Backend) (o : Orc) (sql : String) :
    OpResult String :=
  if ¬ d.tx then (d, bk, [], .error (.msg "no active transaction: use BeginTx first"))
  else if bk.aborted then (d, bk, [.baseExec sql], .error abortedTxErr)
  else if ¬ o.execOk then (d, { bk with aborted := true }, [.baseExec sql], .error o.errVal)
  else (d, bk, [.baseExec sql], .ok o.tag)

/-- Mirror of `beginTx` (session_db.go): no-op without a connection or when
a transaction is already open; otherwise `conn.Begin`. -/
def RealSessionDB.beginTx (d : RealSessionDB) (bk : Backend) (o : Orc) : OpResult Unit :=
  if ¬ d.hasConn then (d, bk, [], .ok ())
  else if d.tx then (d, bk, [], .ok ())
  else if o.beginOk then ({ d with tx := true }, bk, [.baseBegin], .ok ())
  else (d, bk, [.baseBegin], .error (.wrap "begin transaction" o.errVal))

/-- Mirror of `rollbackTx` (session_db.go): roll back the base transaction
and clear it (the field is cleared even when the rollback errors). -/
def RealSessionDB.rollbackTx (d : RealSessionDB) (bk : Backend) (o : Orc) : OpResult Unit :=
  if ¬ d.tx then (d, bk, [], .ok ())
  else if o.rollbackOk then
    ({ d with tx := false }, { bk with aborted := false }, [.baseRollback], .ok ())
  else
    ({ d with tx := false }, { bk with aborted := false }, [.baseRollback], .error o.errVal)

/-- Mirror of `startNewTx` (session_db.go): roll back the current base
transaction (best effort), issue `ROLLBACK` on the raw connection to clear
any failed state, then `conn.Begin` a fresh base transaction. -/
def RealSessionDB.startNewTx (d : RealSessionDB) (bk : Backend) (o : Orc) : OpResult Unit :=
  if ¬ d.hasConn then (d, bk, [], .ok ())
  else
    let d1 := { d with tx := false }
    let evs1 : List Event := if d.tx then [.baseRollback] else []
    if ¬ o.execOk then
      (d1, bk, evs1 ++ [.connExec "ROLLBACK"], .error o.errVal)
    else
      let bk1 : Backend := { bk with aborted := false }
      if o.beginOk then
        ({ d1 with tx := true }, bk1, evs1 ++ [.connExec "ROLLBACK", .baseBegin], .ok ())
      else
        (d1, bk1, evs1 ++ [.connExec "ROLLBACK", .baseBegin],
         .error (.wrap "begin new transaction" o.errVal))

/-- Mirror of `close` (session_db.go): clear the history, roll back the
base transaction (error ignored), close the connection. -/
def RealSessionDB.close (d : RealSessionDB) (bk : Backend) (o : Orc) : OpResult Unit :=
  let d1 := { d with queryHistory := [] }
  let evs1 : List Event := if d.tx then [.baseRollback] else []
  let d2 := { d1 with tx := false }
  let bk1 : Backend := if d.tx then { bk with aborted := false } else bk
  if d.hasConn then
    ({ d2 with hasConn := false }, bk1, evs1 ++ [.connClose],
     if o.execOk then .ok () else .error o.errVal)
  else
    (d2, bk1, evs1, .ok ())

/-- Mirror of `acquireAdvisoryLock` (session_db.go): `pg_advisory_lock` on
the raw connection, outside the transaction. -/
def RealSessionDB.acquireAdvisoryLock (d : RealSessionDB) (bk : Backend) (o : Orc) :
    OpResult Unit :=
  if ¬ d.hasConn then (d, bk, [], .error (.msg "connection is nil"))
  else (d, bk, [.connExec "SELECT pg_advisory_lock($1)"],
        if o.execOk then .ok () else .error o.errVal)

/-- Mirror of `releaseAdvisoryLock` (session_db.go). -/
def RealSessionDB.releaseAdvisoryLock (d : RealSessionDB) (bk : Backend) (o : Orc) :
    OpResult Unit :=
  if ¬ d.hasConn then (d, bk, [], .error (.msg "connection is nil"))
  else (d, bk, [.connExec "SELECT pg_advisory_unlock($1)"],
        if o.execOk then .ok () else .error o.errVal)

/-- The SQL `RollbackUserSavepointsOnDisconnect` issues for one savepoint
at level `L`. -/
def disconnectRollbackSql (L : Int) : String :=
  "ROLLBACK TO SAVEPOINT pgrollback_v_" ++ intDec L ++
  "; RELEASE SAVEPOINT pgrollback_v_" ++ intDec L

/-- Loop body of `RollbackUserSavepointsOnDisconnect`, unrolled on a `Nat`
fuel equal to the remaining iteration count.  Each iteration checks the
level, computes the current savepoint name, decrements the level, and only
then executes the rollback SQL through `SafeExecTCL`, stopping on error. -/
def rollbackLoop (d : RealSessionDB) (bk : Backend) (o : Orc) : Nat → OpResult Unit
  | 0 => (d, bk, [], .ok ())
  | Nat.succ k =>
    if d.SavepointLevel ≤ 0 then (d, bk, [], .ok ())
    else
      let sql := disconnectRollbackSql d.SavepointLevel
      let d1 := { d with SavepointLevel := d.SavepointLevel - 1 }
      match d1.SafeExecTCL bk o sql with
      | (d2, bk2, evs, .error e) => (d2, bk2, evs, .error e)
      | (d2, bk2, evs, .ok _) =>
        let r := rollbackLoop d2 bk2 o k
        (r.1, r.2.1, evs ++ r.2.2.1, r.2.2.2)

/-- Mirror of `RollbackUserSavepointsOnDisconnect` (session_db.go): with
`count ≤ 0` nothing happens; otherwise up to `count` user savepoints are
rolled back, each via `ROLLBACK TO SAVEPOINT cur; RELEASE SAVEPOINT cur`,
decrementing the level before each execution. -/
def RealSessionDB.RollbackUserSavepointsOnDisconnect (d : RealSessionDB) (bk : Backend)
    (o : Orc) (count : Int) : OpResult Unit :=
  if count ≤ 0 then (d, bk, [], .ok ())
  else rollbackLoop d bk o count.toNat

/-! ## Query history (query_history.go) -/

/-- Mirror of `isInternalNoiseQuery` (query_history.go): empty statements
are noise; parseable statements are noise exactly when they are DEALLOCATE;
on parse failure the string fallback recognises `DEALLOCATE` followed by
end-of-string, a space or a tab. -/
def isInternalNoiseQuery (query : String) : Bool :=
  let q := trimS query
  if q = "" then true
  else
    match ParseStatements q with
    | some (st :: _) => IsDeallocateNoise st
    | _ =>
      let uq := upperS q
      hasPfxS uq "DEALLOCATE" &&
        (uq.length = 10 ||
         (10 < uq.length && (uq.data.get? 10 = some ' ' || uq.data.get? 10 = some '\t')))

/-- Mirror of `SetLastQuery` (query_history.go): noise queries are not
recorded; otherwise the entry is appended and, when the history then
exceeds `maxQueryHistory`, the oldest entry is dropped.  `now` models
`time.Now()`. -/
def RealSessionDB.SetLastQuery (d : RealSessionDB) (query : String) (now : Nat) :
    RealSessionDB :=
  if isInternalNoiseQuery query then d
  else
    let h := d.queryHistory ++ [{ Query := query, At := now, Duration := "" }]
    { d with queryHistory := if maxQueryHistory < h.length then h.tail else h }

/-- Run a sequence of `SetLastQuery` calls (query text paired with its
`time.Now()` tick). -/
def runHistory (d : RealSessionDB) : List (String × Nat) → RealSessionDB
  | [] => d
  | (q, t) :: rest => runHistory (d.SetLastQuery q t) rest

/-- Last `n` elements of a list. -/
def lastN (n : Nat) (l : List α) : List α :=
  l.drop (l.length - n)

/-- The history entry `SetLastQuery` builds for a recorded query. -/
def histEntry (p : String × Nat) : QueryHistoryEntry :=
  { Query := p.1, At := p.2, Duration := "" }

/-! ## Test-id extraction (pkg/protocol, part_005) -/

/-- Lookup in a startup-parameter map, with Go's zero-value default. -/
def lookupParam (params : List (String × String)) (key : String) : String :=
  match params.find? (fun kv => kv.1 = key) with
  | some kv => kv.2
  | none => ""

/-- Match of the Go regular expression `^pgtest_(.+)$` (RE2, no multiline
flag): the whole string must be `pgtest_` followed by at least one
character, none of which may be a newline; the capture is that suffix. -/
def pgtestIdMatch (appName : String) : Option String :=
  if hasPfxS appName "pgtest_" then
    let rest := appName.data.drop 7
    if rest ≠ [] ∧ rest.all (fun c => c ≠ '\n') = true then some (String.mk rest) else none
  else none

/-- Mirror of `ExtractTestID` (part_005, pkg/protocol): missing, empty or
`"default"` application names collapse to `"default"`; `pgtest_<id>` yields
`<id>`; any other non-empty value is used verbatim.  The Go function never
returns a non-nil error. -/
def ExtractTestID (params : List (String × String)) : String :=
  let appName := lookupParam params "application_name"
  if appName = "" ∨ appName = "default" then "default"
  else
    match pgtestIdMatch appName with
    | some id => id
    | none => appName

/-- Mirror of the older `ExtractTestID` variant (part_006, pkg/protocol),
which maps every non-matching application name to the shared `"default"`
session instead of using it verbatim. -/
def extractTestIDPart006 (params : List (String × String)) : String :=
  let appName := lookupParam params "application_name"
  if appName = "" ∨ appName = "default" then "default"
  else
    match pgtestIdMatch appName with
    | some id => id
    | none => "default"

/-! ## Whole-session operation machine

`Op` is the repertoire of operations the proxy can perform against one
session over its lifetime — the base-transaction lifecycle, the guarded
execution paths, the TCL rewriters, claim and level bookkeeping, the
post-execution tracking callback, the disconnect rollback, and the query
history.  `step` runs one operation with one oracle; `runOps` folds a
sequence.  Theorems about every session lifetime quantify over the
operation sequence and all oracles. -/

/-- Combined state of one session and one client connection. -/
structure PState where
  db : RealSessionDB
  conn1 : ProxyConnection
  bk : Backend
deriving DecidableEq

/-- One proxy-side operation on the session. -/
inductive Op where
  | opBeginTx
  | opRollbackTx
  | opStartNewTx
  | opClose
  | opSafeExec (sql : String)
  | opSafeQuery (sql : String)
  | opSafeExecTCL (sql : String)
  | opExec (sql : String)
  | opCommitSavePoint
  | opExecGuard (savepointName sql : String)
  | opHandleBegin (connID : Nat)
  | opHandleCommit
  | opHandleRollback
  | opClaim (connID : Nat)
  | opRelease (connID : Nat)
  | opIncrementLevel
  | opDecrementLevel
  | opIncrementCount
  | opDecrementCount
  | opApplyTCL (query : String)
  | opDisconnectRollback (count : Int)
  | opAcquireAdvisoryLock
  | opReleaseAdvisoryLock
  | opSetLastQuery (q : String) (now : Nat)

/-- Lift an `OpResult` into a state transition, discarding the Go return
value (traces and states are what the temporal claims quantify over). -/
def liftDb (st : PState) (r : OpResult α) : PState × List Event :=
  ({ st with db := r.1, bk := r.2.1 }, r.2.2.1)

/-- Run one operation with one oracle. -/
def step (st : PState) (op : Op) (o : Orc) : PState × List Event :=
  match op with
  | .opBeginTx => liftDb st (st.db.beginTx st.bk o)
  | .opRollbackTx => liftDb st (st.db.rollbackTx st.bk o)
  | .opStartNewTx => liftDb st (st.db.startNewTx st.bk o)
  | .opClose => liftDb st (st.db.close st.bk o)
  | .opSafeExec sql => liftDb st (st.db.SafeExec st.bk o sql)
  | .opSafeQuery sql => liftDb st (st.db.SafeQuery st.bk o sql)
  | .opSafeExecTCL sql => liftDb st (st.db.SafeExecTCL st.bk o sql)
  | .opExec sql => liftDb st (st.db.Exec st.bk o sql)
  | .opCommitSavePoint => liftDb st (commitSavePoint st.db st.bk)
  | .opExecGuard name sql =>
    let r := execQuerySafeSavepoint st.bk o name sql
    ({ st with bk := r.1 }, r.2.1)
  | .opHandleBegin connID =>
    match st.db.handleBegin connID with
    | .ok (d2, _) => ({ st with db := d2 }, [])
    | .error _ => (st, [])
  | .opHandleCommit => (st, [])
  | .opHandleRollback => (st, [])
  | .opClaim connID =>
    match st.db.ClaimOpenTransaction connID with
    | .ok d2 => ({ st with db := d2 }, [])
    | .error _ => (st, [])
  | .opRelease connID => ({ st with db := st.db.ReleaseOpenTransaction connID }, [])
  | .opIncrementLevel => ({ st with db := st.db.IncrementSavepointLevel }, [])
  | .opDecrementLevel => ({ st with db := st.db.DecrementSavepointLevel }, [])
  | .opIncrementCount => ({ st with conn1 := st.conn1.IncrementUserOpenTransactionCount }, [])
  | .opDecrementCount =>
    match st.conn1.DecrementUserOpenTransactionCount with
    | .ok p2 => ({ st with conn1 := p2 }, [])
    | .error _ => (st, [])
  | .opApplyTCL query =>
    let r := ApplyTCLSuccessTracking st.conn1 query st.db
    ({ st with conn1 := r.1, db := r.2.1 }, [])
  | .opDisconnectRollback count => liftDb st (st.db.RollbackUserSavepointsOnDisconnect st.bk o count)
  | .opAcquireAdvisoryLock => liftDb st (st.db.acquireAdvisoryLock st.bk o)
  | .opReleaseAdvisoryLock => liftDb st (st.db.releaseAdvisoryLock st.bk o)
  | .opSetLastQuery q now => ({ st with db := st.db.SetLastQuery q now }, [])

/-- Run a sequence of operations, each with its own oracle, collecting the
full backend event trace. -/
def runOps (st : PState) : List (Op × Orc) → PState × List Event
  | [] => (st, [])
  | (op, o) :: rest =>
    let r := step st op o
    let r2 := runOps r.1 rest
    (r2.1, r.2 ++ r2.2)

/-- Fold of increment (`true`) / decrement (`false`) operations on one
connection's user-transaction counter; a failed decrement leaves the
connection unchanged (the caller only receives the error). -/
def runCounterOps (p : ProxyConnection) : List Bool → ProxyConnection
  | [] => p
  | true :: rest => runCounterOps p.IncrementUserOpenTransactionCount rest
  | false :: rest =>
    match p.DecrementUserOpenTransactionCount with
    | .ok p2 => runCounterOps p2 rest
    | .error _ => runCounterOps p rest

/-- The backend events `RollbackUserSavepointsOnDisconnect` issues when the
backend accepts every command: one guard savepoint plus the rollback SQL
for each of the `n` savepoints, at descending levels starting from `L`. -/
def expectedDisconnectEvents : Int → Nat → List Event
  | _, 0 => []
  | L, Nat.succ k =>
    [.spBegin, .spExec (disconnectRollbackSql L)] ++ expectedDisconnectEvents (L - 1) k

/-! ## Concrete fixtures used by witnesses and counterexamples -/

/-- A session at savepoint level 1 whose claim is held by connection 7. -/
def dbLevelOneClaimed : RealSessionDB :=
  { hasConn := true, tx := true, SavepointLevel := 1,
    connectionWithOpenTx := 7, queryHistory := [] }

/-- Connection 7 with one open user transaction. -/
def connSeven : ProxyConnection := { id := 7, userOpenTransactionCount := 1 }

/-- Oracle on which every backend call succeeds. -/
def orcOkAll : Orc :=
  { beginOk := true, execOk := true, commitOk := true, rollbackOk := true,
    tag := "INSERT 0 1", errVal := .msg "boom" }

/-- Oracle on which the command execution fails but the guard operations
succeed. -/
def orcExecFails : Orc :=
  { beginOk := true, execOk := false, commitOk := true, rollbackOk := true,
    tag := "", errVal := .msg "boom" }

/-- A freshly created session paired with one idle client connection. -/
def pstInit : PState :=
  { db := newSessionDB true true,
    conn1 := { id := 3, userOpenTransactionCount := 0 },
    bk := { aborted := false } }

/-! ## Helper lemmas -/

theorem isPrefixOf_self_append (l t : List Char) : l.isPrefixOf (l ++ t) = true := by
  induction l with
  | nil => simp [List.isPrefixOf]
  | cons c cs ih => simp [List.isPrefixOf, ih]

theorem mk_data (s : String) : String.mk s.data = s := by
  cases s; rfl

theorem ne_empty_iff_data (s : String) : s ≠ "" ↔ s.data ≠ [] := by
  cases s with
  | mk l =>
    constructor
    · intro h hl
      exact h (by simpa using congrArg String.mk hl)
    · intro h he
      exact h (congrArg String.data he)

/-! ## Claim C10 -/

/-- C10: the per-connection user-open-transaction counter never becomes
negative: decrementing when the counter is 0 returns
`ErrNoOpenUserTransaction` and leaves the counter unchanged, and every
sequence of increments and (attempted) decrements keeps the counter
non-negative. -/
theorem C10_user_tx_counter_never_negative :
    (∀ p : ProxyConnection, p.userOpenTransactionCount = 0 →
      p.DecrementUserOpenTransactionCount = .error ErrNoOpenUserTransaction) ∧
    (∀ (p : ProxyConnection) (ops : List Bool), 0 ≤ p.userOpenTransactionCount →
      0 ≤ (runCounterOps p ops).userOpenTransactionCount) := by
  constructor
  · intro p h
    simp [ProxyConnection.DecrementUserOpenTransactionCount, h]
  · intro p ops
    induction ops generalizing p with
    | nil => intro h; simpa [runCounterOps] using h
    | cons b rest ih =>
      intro h
      cases b with
      | false =>
        by_cases hc : p.userOpenTransactionCount ≤ 0
        · simpa [runCounterOps, ProxyConnection.DecrementUserOpenTransactionCount, hc] using ih p h
        · simp only [runCounterOps, ProxyConnection.DecrementUserOpenTransactionCount, if_neg hc]
          exact ih _ (by simp; omega)
      | true =>
        simp only [runCounterOps]
        exact ih _ (by simp [ProxyConnection.IncrementUserOpenTransactionCount]; omega)

/-- Witness for C10 at a concrete connection and operation sequence. -/
theorem C10_witness :
    ({ id := 7, userOpenTransactionCount := 0 } : ProxyConnection).userOpenTransactionCount = 0 ∧
    ({ id := 7, userOpenTransactionCount := 0 } : ProxyConnection).DecrementUserOpenTransactionCount
      = .error ErrNoOpenUserTransaction ∧
    0 ≤ (runCounterOps { id := 7, userOpenTransactionCount := 0 }
          [false, true, false, false]).userOpenTransactionCount :=
  ⟨by decide,
   C10_user_tx_counter_never_negative.1 { id := 7, userOpenTransactionCount := 0 } (by decide),
   C10_user_tx_counter_never_negative.2 { id := 7, userOpenTransactionCount := 0 }
     [false, true, false, false] (by decide)⟩

/-! ## Claim C8 -/

/-- C8 counterexample: the claim says an `application_name` matching
`pgrollback_<id>` yields the suffix `<id>`; the code has no such pattern —
`ExtractTestID` (part_005) returns `pgrollback_foo` verbatim, not `foo`. -/
theorem C8_counterexample :
    ExtractTestID [("application_name", "pgrollback_foo")] = "pgrollback_foo" ∧
    ExtractTestID [("application_name", "pgrollback_foo")] ≠ "foo" := by
  decide

/-- C8 amended: the extracted test id is `"default"` when
`application_name` is absent, empty or `"default"`; the suffix `<id>` when
it matches `pgtest_<id>` (the only recognised pattern); and the
`application_name` value verbatim for any other non-empty value (including
`pgrollback_<id>` values). -/
theorem C8_extract_test_id_amended (params : List (String × String)) :
    ((lookupParam params "application_name" = "" ∨
      lookupParam params "application_name" = "default") →
      ExtractTestID params = "default") ∧
    (∀ id : String, lookupParam params "application_name" = "pgtest_" ++ id →
      id ≠ "" → id.data.all (fun c => c ≠ '\n') = true →
      ExtractTestID params = id) ∧
    ((lookupParam params "application_name" ≠ "" ∧
      lookupParam params "application_name" ≠ "default" ∧
      pgtestIdMatch (lookupParam params "application_name") = none) →
      ExtractTestID params = lookupParam params "application_name") := by
  refine ⟨?_, ?_, ?_⟩
  · intro h
    unfold ExtractTestID
    rcases h with h | h <;> simp [h]
  · intro id happ hne hnl
    have hdata : id.data ≠ [] := (ne_empty_iff_data id).mp hne
    unfold ExtractTestID
    rw [happ]
    have hcond : ¬ ("pgtest_" ++ id = "" ∨ "pgtest_" ++ id = "default") := by
      rintro (h | h) <;> · rw [String.ext_iff, String.data_append] at h; simp at h
    rw [if_neg hcond]
    unfold pgtestIdMatch hasPfxS
    rw [String.data_append]
    have hpfx : ("pgtest_".data).isPrefixOf ("pgtest_".data ++ id.data) = true :=
      isPrefixOf_self_append _ _
    simp only [hpfx, if_true]
    have hdrop : ("pgtest_".data ++ id.data).drop 7 = id.data := by
      show (('p' :: 'g' :: 't' :: 'e' :: 's' :: 't' :: '_' :: []) ++ id.data).drop 7 = id.data
      simp
    rw [hdrop]
    rw [if_pos ⟨hdata, hnl⟩]
  · rintro ⟨h1, h2, h3⟩
    unfold ExtractTestID
    rw [if_neg (by rintro (h | h) <;> [exact h1 h; exact h2 h]), h3]

/-- Witness for C8 amended at concrete parameter maps. -/
theorem C8_witness :
    ExtractTestID [("application_name", "pgtest_t1")] = "t1" ∧
    ExtractTestID [] = "default" ∧
    ExtractTestID [("application_name", "pgAdmin")] = "pgAdmin" :=
  ⟨(C8_extract_test_id_amended [("application_name", "pgtest_t1")]).2.1 "t1"
      (by decide) (by decide) (by decide),
   (C8_extract_test_id_amended []).1 (by decide),
   (C8_extract_test_id_amended [("application_name", "pgAdmin")]).2.2
      ⟨by decide, by decide, by decide⟩⟩

/-! ## Claim C3 -/

/-- C3: while connection `a` holds the open-user-transaction claim of a
session with an open nested level, a `BEGIN` from a different connection
`b` is rejected by the rewriter with `ErrOnlyOneTransactionAtATime`
(producing no backend SQL — the rewriter returns before building any
`SAVEPOINT` statement, and never mutates the session), while a nested
`BEGIN` from `a` itself succeeds as the synthesized no-op marker
`DEFAULT_SELECT_ONE`, again with the session state returned unchanged. -/
theorem C3_second_connection_begin (d : RealSessionDB) (a b : Nat)
    (htx : d.tx = true) (hclaim : d.connectionWithOpenTx = a) (ha : a ≠ 0)
    (hb : b ≠ 0) (hab : a ≠ b) (hlvl : 1 ≤ d.SavepointLevel) :
    d.handleBegin b = .error ErrOnlyOneTransactionAtATime ∧
    d.handleBegin a = .ok (d, DEFAULT_SELECT_ONE) := by
  unfold RealSessionDB.handleBegin RealSessionDB.HasActiveTransaction
  constructor
  · rw [if_neg (by simp [htx]), if_pos]
    refine ⟨hb, ?_⟩
    simp [RealSessionDB.isTransactionHeldByOtherConnection,
          RealSessionDB.hasOpenUserTransaction, hclaim, ha, hab]
  · rw [if_neg (by simp [htx]), if_neg, if_pos hlvl]
    rintro ⟨-, hheld⟩
    simp [RealSessionDB.isTransactionHeldByOtherConnection,
          RealSessionDB.hasOpenUserTransaction, hclaim] at hheld

/-- Witness for C3 at a concrete session and pair of connections. -/
theorem C3_witness :
    dbLevelOneClaimed.handleBegin 9 = .error ErrOnlyOneTransactionAtATime ∧
    dbLevelOneClaimed.handleBegin 7 = .ok (dbLevelOneClaimed, DEFAULT_SELECT_ONE) :=
  C3_second_connection_begin dbLevelOneClaimed 7 9 (by decide) (by decide)
    (by decide) (by decide) (by decide) (by decide)

/-! ## Claim C4 -/

/-- C4 (code bug): with level 1 and the claim held by connection 7 with one
open user transaction, the rewriter emits exactly the claimed backend SQL
`ROLLBACK TO SAVEPOINT pgrollback_v_1; RELEASE SAVEPOINT pgrollback_v_1`,
and a user ROLLBACK at level 0 is the synthesized no-op; but running the
post-execution tracking callback on that SQL after the backend accepted it
leaves the savepoint level, the connection counter and the claim all
unchanged — the decrement / release code in the callback's ROLLBACK branch
is commented out, and its name scan only recognises `pgtest_v_*` names
while the rewriter emits `pgrollback_v_*` names.  The same holds even for
the `pgtest_v_*` spelling of the rollback SQL. -/
theorem C4_rollback_tracking_not_applied :
    dbLevelOneClaimed.handleRollback =
      "ROLLBACK TO SAVEPOINT pgrollback_v_1; RELEASE SAVEPOINT pgrollback_v_1" ∧
    ApplyTCLSuccessTracking connSeven
      "ROLLBACK TO SAVEPOINT pgrollback_v_1; RELEASE SAVEPOINT pgrollback_v_1"
      dbLevelOneClaimed = (connSeven, dbLevelOneClaimed, none) ∧
    ApplyTCLSuccessTracking connSeven
      "ROLLBACK TO SAVEPOINT pgtest_v_1; RELEASE SAVEPOINT pgtest_v_1"
      dbLevelOneClaimed = (connSeven, dbLevelOneClaimed, none) ∧
    (newSessionDB true true).handleRollback = DEFAULT_SELECT_ONE := by
  decide

/-! ## Claim C5 -/

/-- C5 (code bug): with level 1 the rewriter emits exactly
`RELEASE SAVEPOINT pgrollback_v_1` for a user COMMIT, and a COMMIT at level
0 is the synthesized no-op; but running the post-execution tracking
callback on that SQL after the backend accepted it leaves the level, the
counter and the claim unchanged, because the callback's name scan only
recognises `pgtest_v_*` names while the rewriter emits `pgrollback_v_*`
names — so the claimed decrement and claim release never happen. -/
theorem C5_commit_tracking_not_applied :
    dbLevelOneClaimed.handleCommit = "RELEASE SAVEPOINT pgrollback_v_1" ∧
    ApplyTCLSuccessTracking connSeven "RELEASE SAVEPOINT pgrollback_v_1" dbLevelOneClaimed
      = (connSeven, dbLevelOneClaimed, none) ∧
    (newSessionDB true true).handleCommit = DEFAULT_SELECT_ONE := by
  decide

/-! ## Claim C2 -/

/-- C2: every non-TCL data command runs inside an inner guard savepoint.
On a backend error the guard rolls back to and releases the inner
savepoint, the original command error is propagated inside the returned
error, and the base transaction is not left aborted — so a subsequent
command on the same session executes normally (conjunct three) or fails
independently; on success the guard is released and the backend's command
tag is returned.  Stated both for `SafeExec` (session_db.go), whose guard
is the pgx nested transaction (`spBegin` / `spRollback` / `spCommit`
events), and for `execQuerySafeSavepoint` (tx_guard.go), whose guard is an
explicitly named savepoint driven through SQL on the base transaction. -/
theorem C2_guard_isolates_failures (d : RealSessionDB) (bk : Backend) (o o2 : Orc)
    (nm sql sql2 : String)
    (htx : d.tx = true) (hab : bk.aborted = false)
    (hb : o.beginOk = true) (hrb : o.rollbackOk = true) :
    (o.execOk = false →
      d.SafeExec bk o sql =
        (d, { aborted := false }, [.spBegin, .spExec sql, .spRollback],
         .error (.wrap "Safe exec failed" o.errVal))) ∧
    (o.execOk = true → o.commitOk = true →
      d.SafeExec bk o sql = (d, bk, [.spBegin, .spExec sql, .spCommit], .ok o.tag)) ∧
    (o.execOk = false → o2.beginOk = true → o2.execOk = true → o2.commitOk = true →
      (d.SafeExec (d.SafeExec bk o sql).2.1 o2 sql2).2.2.2 = .ok o2.tag) ∧
    (o.execOk = false →
      execQuerySafeSavepoint bk o nm sql =
        ({ aborted := false },
         [.baseExec ("SAVEPOINT " ++ nm), .baseExec sql,
          .baseExec ("ROLLBACK TO SAVEPOINT " ++ nm), .baseExec ("RELEASE SAVEPOINT " ++ nm)],
         .error (.wrap "falha ao executar comando" o.errVal))) ∧
    (o.execOk = true →
      execQuerySafeSavepoint bk o nm sql =
        (bk, [.baseExec ("SAVEPOINT " ++ nm), .baseExec sql,
              .baseExec ("RELEASE SAVEPOINT " ++ nm)], .ok o.tag)) := by
  refine ⟨?_, ?_, ?_, ?_, ?_⟩
  · intro hex
    simp [RealSessionDB.SafeExec, htx, hab, hb, hrb, hex]
  · intro hex hc
    simp [RealSessionDB.SafeExec, htx, hab, hb, hex, hc]
  · intro hex hb2 hex2 hc2
    simp [RealSessionDB.SafeExec, htx, hab, hb, hrb, hex, hb2, hex2, hc2]
  · intro hex
    simp [execQuerySafeSavepoint, hab, hb, hrb, hex]
  · intro hex
    simp [execQuerySafeSavepoint, hab, hb, hex]

/-- Witness for C2 at a concrete session, oracles and commands. -/
theorem C2_witness :
    (orcExecFails.execOk = false →
      dbLevelOneClaimed.SafeExec ⟨false⟩ orcExecFails "INSERT INTO t (v) VALUES (1)" =
        (dbLevelOneClaimed, { aborted := false },
         [.spBegin, .spExec "INSERT INTO t (v) VALUES (1)", .spRollback],
         .error (.wrap "Safe exec failed" orcExecFails.errVal))) ∧
    (orcExecFails.execOk = true → orcExecFails.commitOk = true →
      dbLevelOneClaimed.SafeExec ⟨false⟩ orcExecFails "INSERT INTO t (v) VALUES (1)" =
        (dbLevelOneClaimed, ⟨false⟩,
         [.spBegin, .spExec "INSERT INTO t (v) VALUES (1)", .spCommit],
         .ok orcExecFails.tag)) ∧
    (orcExecFails.execOk = false → orcOkAll.beginOk = true → orcOkAll.execOk = true →
      orcOkAll.commitOk = true →
      (dbLevelOneClaimed.SafeExec
        (dbLevelOneClaimed.SafeExec ⟨false⟩ orcExecFails "INSERT INTO t (v) VALUES (1)").2.1
        orcOkAll "SELECT 1").2.2.2 = .ok orcOkAll.tag) ∧
    (orcExecFails.execOk = false →
      execQuerySafeSavepoint ⟨false⟩ orcExecFails "pgtest_exec_guard" "INSERT INTO t (v) VALUES (1)" =
        ({ aborted := false },
         [.baseExec ("SAVEPOINT " ++ "pgtest_exec_guard"),
          .baseExec "INSERT INTO t (v) VALUES (1)",
          .baseExec ("ROLLBACK TO SAVEPOINT " ++ "pgtest_exec_guard"),
          .baseExec ("RELEASE SAVEPOINT " ++ "pgtest_exec_guard")],
         .error (.wrap "falha ao executar comando" orcExecFails.errVal))) ∧
    (orcExecFails.execOk = true →
      execQuerySafeSavepoint ⟨false⟩ orcExecFails "pgtest_exec_guard" "INSERT INTO t (v) VALUES (1)" =
        (⟨false⟩, [.baseExec ("SAVEPOINT " ++ "pgtest_exec_guard"),
                   .baseExec "INSERT INTO t (v) VALUES (1)",
                   .baseExec ("RELEASE SAVEPOINT " ++ "pgtest_exec_guard")],
         .ok orcExecFails.tag)) :=
  C2_guard_isolates_failures dbLevelOneClaimed ⟨false⟩ orcExecFails orcOkAll
    "pgtest_exec_guard" "INSERT INTO t (v) VALUES (1)" "SELECT 1"
    (by decide) (by decide) (by decide) (by decide)

/-! ## Lemmas on decimal digits and the generated savepoint SQL -/

theorem natDigitChar_isDigit (n : Nat) (h : n < 10) : isDigitChar (natDigitChar n) = true := by
  interval_cases n <;> decide

theorem natDigitsFuel_digits (fuel : Nat) :
    ∀ n : Nat, (natDigitsFuel fuel n).all isDigitChar = true := by
  induction fuel with
  | zero => intro n; rfl
  | succ f ih =>
    intro n
    unfold natDigitsFuel
    split
    · next h => simp [natDigitChar_isDigit n h]
    · next h =>
      simp [List.all_append, ih (n / 10),
            natDigitChar_isDigit (n % 10) (Nat.mod_lt _ (by omega))]

theorem natDigitsFuel_ne_nil (fuel n : Nat) (h : fuel ≠ 0) : natDigitsFuel fuel n ≠ [] := by
  cases fuel with
  | zero => exact absurd rfl h
  | succ f =>
    unfold natDigitsFuel
    split <;> simp

theorem intDec_pos_digits (L : Int) (h : 1 ≤ L) :
    (intDec L).data ≠ [] ∧ (intDec L).data.all isDigitChar = true := by
  unfold intDec natDec
  rw [if_neg (by omega)]
  exact ⟨natDigitsFuel_ne_nil _ _ (by omega), natDigitsFuel_digits _ _⟩

theorem digit_not_semi {c : Char} (h : isDigitChar c = true) : c ≠ ';' := by
  intro he
  rw [he] at h
  exact absurd h (by decide)

theorem digit_not_space {c : Char} (h : isDigitChar c = true) : isSpaceChar c = false := by
  by_contra hsp
  rw [Bool.not_eq_false] at hsp
  have hc : c = ' ' ∨ c = '\t' ∨ c = '\n' ∨ c = '\r' := by
    simpa [isSpaceChar, or_assoc] using hsp
  rcases hc with h1 | h1 | h1 | h1 <;> (subst h1; exact absurd h (by decide))

theorem digit_isIdent {c : Char} (h : isDigitChar c = true) :
    ((97 ≤ c.toNat && c.toNat ≤ 122) || (65 ≤ c.toNat && c.toNat ≤ 90) ||
     (48 ≤ c.toNat && c.toNat ≤ 57) || c = '_' || c = '$') = true := by
  simp only [isDigitChar, Bool.and_eq_true, decide_eq_true_eq] at h
  simp only [Bool.or_eq_true, Bool.and_eq_true, decide_eq_true_eq]
  tauto

theorem splitSemiAux_no_semi (l : List Char) :
    ∀ acc : List Char, (∀ c ∈ l, c ≠ ';') → splitSemiAux l acc = [acc.reverse ++ l] := by
  induction l with
  | nil => intro acc _; simp [splitSemiAux]
  | cons c t ih =>
    intro acc h
    unfold splitSemiAux
    rw [if_neg (h c (by simp))]
    rw [ih _ (fun x hx => h x (by simp [hx]))]
    simp

theorem splitSemiAux_semi_split (a : List Char) (b : List Char) :
    ∀ acc : List Char, (∀ c ∈ a, c ≠ ';') →
      splitSemiAux (a ++ ';' :: b) acc = (acc.reverse ++ a) :: splitSemiAux b [] := by
  induction a with
  | nil => intro acc _; simp [splitSemiAux]
  | cons c t ih =>
    intro acc h
    rw [List.cons_append]
    unfold splitSemiAux
    rw [if_neg (by simpa using h c (by simp))]
    rw [ih _ (fun x hx => h x (by simp [hx]))]
    simp
    cases b <;> rfl

theorem trimChars_no_space_ends (c d : Char) (m : List Char)
    (hc : isSpaceChar c = false) (hd : isSpaceChar d = false) :
    trimChars (c :: (m ++ [d])) = c :: (m ++ [d]) := by
  unfold trimChars
  rw [List.dropWhile_cons, if_neg (by simp [hc])]
  rw [show (c :: (m ++ [d])).reverse = d :: (m.reverse ++ [c]) by simp]
  rw [List.dropWhile_cons, if_neg (by simp [hd])]
  simp

theorem trimChars_cons_space (l : List Char) : trimChars (' ' :: l) = trimChars l := by
  unfold trimChars
  rw [List.dropWhile_cons, if_pos (by decide)]

theorem isPrefixOf_append_left (kw : List Char) :
    ∀ a b : List Char, kw.length ≤ a.length → kw.isPrefixOf (a ++ b) = kw.isPrefixOf a := by
  induction kw with
  | nil => intro a b _; simp [List.isPrefixOf]
  | cons k ks ih =>
    intro a b h
    cases a with
    | nil => simp at h
    | cons x xs =>
      simp only [List.cons_append, List.isPrefixOf, List.append_eq]
      rw [ih xs b (by simpa using h)]

theorem trimChars_cons_digits (c : Char) (m s : List Char)
    (hc : isSpaceChar c = false) (hs : s ≠ []) (hdig : s.all isDigitChar = true) :
    trimChars (c :: (m ++ s)) = c :: (m ++ s) := by
  obtain ⟨s1, d, rfl⟩ : ∃ s1 d, s = s1 ++ [d] := by
    rcases List.eq_nil_or_concat s with h | ⟨s1, d, h⟩
    · exact absurd h hs
    · exact ⟨s1, d, by simpa [List.concat_eq_append] using h⟩
  have hd : isDigitChar d = true := List.all_eq_true.mp hdig d (by simp)
  have := trimChars_no_space_ends c d (m ++ s1) hc (digit_not_space hd)
  simpa [List.append_assoc] using this

theorem parseOne_rollbackTo_name (s : String) (hne : s.data ≠ [])
    (hdig : s.data.all isDigitChar = true) :
    parseOne (String.mk ("ROLLBACK TO SAVEPOINT pgrollback_v_".data ++ s.data)) =
      some (.rollbackToStmt (String.mk ("pgrollback_v_".data ++ s.data))) := by
  have htrim1 : trimS (String.mk ("ROLLBACK TO SAVEPOINT pgrollback_v_".data ++ s.data))
      = String.mk ("ROLLBACK TO SAVEPOINT pgrollback_v_".data ++ s.data) := by
    show String.mk (trimChars _) = _
    rw [show "ROLLBACK TO SAVEPOINT pgrollback_v_".data ++ s.data
          = 'R' :: ("OLLBACK TO SAVEPOINT pgrollback_v_".data ++ s.data) from rfl]
    rw [trimChars_cons_digits 'R' _ s.data (by decide) hne hdig]
  have hciRo : hasPfxCI (String.mk ("ROLLBACK TO SAVEPOINT pgrollback_v_".data ++ s.data))
      "ROLLBACK TO SAVEPOINT " = true := by
    show ("ROLLBACK TO SAVEPOINT ".data).isPrefixOf
        (("ROLLBACK TO SAVEPOINT pgrollback_v_".data ++ s.data).map toUpperChar) = true
    rw [List.map_append]
    rw [isPrefixOf_append_left _ _ _ (by decide)]
    decide
  have hdrop : dropS (String.mk ("ROLLBACK TO SAVEPOINT pgrollback_v_".data ++ s.data)) 22
      = String.mk ("pgrollback_v_".data ++ s.data) := by
    show String.mk (("ROLLBACK TO SAVEPOINT pgrollback_v_".data ++ s.data).drop 22) = _
    rw [List.drop_append_eq_append_drop]
    rw [show ("ROLLBACK TO SAVEPOINT pgrollback_v_".data).drop 22
          = "pgrollback_v_".data from by decide]
    rw [show 22 - ("ROLLBACK TO SAVEPOINT pgrollback_v_".data).length = 0 from by decide]
    rw [List.drop_zero]
  have htrim2 : trimS (String.mk ("pgrollback_v_".data ++ s.data))
      = String.mk ("pgrollback_v_".data ++ s.data) := by
    show String.mk (trimChars _) = _
    rw [show "pgrollback_v_".data ++ s.data
          = 'p' :: ("grollback_v_".data ++ s.data) from rfl]
    rw [trimChars_cons_digits 'p' _ s.data (by decide) hne hdig]
  have hnamecond : String.mk ("pgrollback_v_".data ++ s.data) ≠ "" ∧
      isIdentChars ("pgrollback_v_".data ++ s.data) = true := by
    constructor
    · rw [ne_empty_iff_data]; simp
    · unfold isIdentChars
      simp only [List.all_append, Bool.and_eq_true]
      refine ⟨by decide, ?_⟩
      rw [List.all_eq_true] at hdig ⊢
      intro c hc
      exact digit_isIdent (hdig c hc)
  simp only [parseOne, htrim1, hciRo, if_true, hdrop, htrim2]
  rw [if_pos hnamecond]

theorem parseOne_release_name (s : String) (hne : s.data ≠ [])
    (hdig : s.data.all isDigitChar = true) :
    parseOne (String.mk ("RELEASE SAVEPOINT pgrollback_v_".data ++ s.data)) =
      some (.releaseStmt (String.mk ("pgrollback_v_".data ++ s.data))) := by
  have htrim1 : trimS (String.mk ("RELEASE SAVEPOINT pgrollback_v_".data ++ s.data))
      = String.mk ("RELEASE SAVEPOINT pgrollback_v_".data ++ s.data) := by
    show String.mk (trimChars _) = _
    rw [show "RELEASE SAVEPOINT pgrollback_v_".data ++ s.data
          = 'R' :: ("ELEASE SAVEPOINT pgrollback_v_".data ++ s.data) from rfl]
    rw [trimChars_cons_digits 'R' _ s.data (by decide) hne hdig]
  have hciRo : hasPfxCI (String.mk ("RELEASE SAVEPOINT pgrollback_v_".data ++ s.data))
      "ROLLBACK TO SAVEPOINT " = false := by
    show ("ROLLBACK TO SAVEPOINT ".data).isPrefixOf
        (("RELEASE SAVEPOINT pgrollback_v_".data ++ s.data).map toUpperChar) = false
    rw [List.map_append]
    rw [isPrefixOf_append_left _ _ _ (by decide)]
    decide
  have hciRel : hasPfxCI (String.mk ("RELEASE SAVEPOINT pgrollback_v_".data ++ s.data))
      "RELEASE SAVEPOINT " = true := by
    show ("RELEASE SAVEPOINT ".data).isPrefixOf
        (("RELEASE SAVEPOINT pgrollback_v_".data ++ s.data).map toUpperChar) = true
    rw [List.map_append]
    rw [isPrefixOf_append_left _ _ _ (by decide)]
    decide
  have hdrop : dropS (String.mk ("RELEASE SAVEPOINT pgrollback_v_".data ++ s.data)) 18
      = String.mk ("pgrollback_v_".data ++ s.data) := by
    show String.mk (("RELEASE SAVEPOINT pgrollback_v_".data ++ s.data).drop 18) = _
    rw [List.drop_append_eq_append_drop]
    rw [show ("RELEASE SAVEPOINT pgrollback_v_".data).drop 18
          = "pgrollback_v_".data from by decide]
    rw [show 18 - ("RELEASE SAVEPOINT pgrollback_v_".data).length = 0 from by decide]
    rw [List.drop_zero]
  have htrim2 : trimS (String.mk ("pgrollback_v_".data ++ s.data))
      = String.mk ("pgrollback_v_".data ++ s.data) := by
    show String.mk (trimChars _) = _
    rw [show "pgrollback_v_".data ++ s.data
          = 'p' :: ("grollback_v_".data ++ s.data) from rfl]
    rw [trimChars_cons_digits 'p' _ s.data (by decide) hne hdig]
  have hnamecond : String.mk ("pgrollback_v_".data ++ s.data) ≠ "" ∧
      isIdentChars ("pgrollback_v_".data ++ s.data) = true := by
    constructor
    · rw [ne_empty_iff_data]; simp
    · unfold isIdentChars
      simp only [List.all_append, Bool.and_eq_true]
      refine ⟨by decide, ?_⟩
      rw [List.all_eq_true] at hdig ⊢
      intro c hc
      exact digit_isIdent (hdig c hc)
  simp only [parseOne, htrim1, hciRo, Bool.false_eq_true, if_false, hciRel, if_true, hdrop, htrim2]
  rw [if_pos hnamecond]

theorem parseStatements_disconnect_sql (s : String) (hne : s.data ≠ [])
    (hdig : s.data.all isDigitChar = true) :
    ParseStatements ("ROLLBACK TO SAVEPOINT pgrollback_v_" ++ s ++
        "; RELEASE SAVEPOINT pgrollback_v_" ++ s)
      = some [.rollbackToStmt (String.mk ("pgrollback_v_".data ++ s.data)),
              .releaseStmt (String.mk ("pgrollback_v_".data ++ s.data))] := by
  have hsemi : ∀ c ∈ s.data, c ≠ ';' :=
    fun c hc => digit_not_semi (List.all_eq_true.mp hdig c hc)
  unfold ParseStatements
  have hdata : ("ROLLBACK TO SAVEPOINT pgrollback_v_" ++ s ++
        "; RELEASE SAVEPOINT pgrollback_v_" ++ s).data
      = ("ROLLBACK TO SAVEPOINT pgrollback_v_".data ++ s.data) ++
        ';' :: (" RELEASE SAVEPOINT pgrollback_v_".data ++ s.data) := by
    simp [String.data_append, List.append_assoc]
  rw [hdata]
  rw [splitSemiAux_semi_split _ _ [] (by
    intro c hc
    rcases List.mem_append.mp hc with h | h
    · exact (by decide : ∀ c ∈ "ROLLBACK TO SAVEPOINT pgrollback_v_".data, c ≠ ';') c h
    · exact hsemi c h)]
  rw [splitSemiAux_no_semi _ [] (by
    intro c hc
    rcases List.mem_append.mp hc with h | h
    · exact (by decide : ∀ c ∈ " RELEASE SAVEPOINT pgrollback_v_".data, c ≠ ';') c h
    · exact hsemi c h)]
  have htrimA : trimS (String.mk ("ROLLBACK TO SAVEPOINT pgrollback_v_".data ++ s.data))
      = String.mk ("ROLLBACK TO SAVEPOINT pgrollback_v_".data ++ s.data) := by
    show String.mk (trimChars _) = _
    rw [show "ROLLBACK TO SAVEPOINT pgrollback_v_".data ++ s.data
          = 'R' :: ("OLLBACK TO SAVEPOINT pgrollback_v_".data ++ s.data) from rfl]
    rw [trimChars_cons_digits 'R' _ s.data (by decide) hne hdig]
  have htrimB : trimS (String.mk (" RELEASE SAVEPOINT pgrollback_v_".data ++ s.data))
      = String.mk ("RELEASE SAVEPOINT pgrollback_v_".data ++ s.data) := by
    show String.mk (trimChars _) = _
    rw [show " RELEASE SAVEPOINT pgrollback_v_".data ++ s.data
          = ' ' :: ("RELEASE SAVEPOINT pgrollback_v_".data ++ s.data) from rfl]
    rw [trimChars_cons_space]
    rw [show "RELEASE SAVEPOINT pgrollback_v_".data ++ s.data
          = 'R' :: ("ELEASE SAVEPOINT pgrollback_v_".data ++ s.data) from rfl]
    rw [trimChars_cons_digits 'R' _ s.data (by decide) hne hdig]
  simp only [List.reverse_nil, List.nil_append, List.map, htrimA, htrimB]
  have hp1 : (String.mk ("ROLLBACK TO SAVEPOINT pgrollback_v_".data ++ s.data) ≠ "" ∧
      hasPfxS (String.mk ("ROLLBACK TO SAVEPOINT pgrollback_v_".data ++ s.data)) "--" = false) := by
    constructor
    · rw [ne_empty_iff_data]
      rw [show "ROLLBACK TO SAVEPOINT pgrollback_v_".data ++ s.data
            = 'R' :: ("OLLBACK TO SAVEPOINT pgrollback_v_".data ++ s.data) from rfl]
      simp
    · show ("--".data).isPrefixOf ("ROLLBACK TO SAVEPOINT pgrollback_v_".data ++ s.data) = false
      rw [isPrefixOf_append_left _ _ _ (by decide)]
      decide
  have hp2 : (String.mk ("RELEASE SAVEPOINT pgrollback_v_".data ++ s.data) ≠ "" ∧
      hasPfxS (String.mk ("RELEASE SAVEPOINT pgrollback_v_".data ++ s.data)) "--" = false) := by
    constructor
    · rw [ne_empty_iff_data]
      rw [show "RELEASE SAVEPOINT pgrollback_v_".data ++ s.data
            = 'R' :: ("ELEASE SAVEPOINT pgrollback_v_".data ++ s.data) from rfl]
      simp
    · show ("--".data).isPrefixOf ("RELEASE SAVEPOINT pgrollback_v_".data ++ s.data) = false
      rw [isPrefixOf_append_left _ _ _ (by decide)]
      decide
  rw [List.filter_cons_of_pos (by exact decide_eq_true hp1),
      List.filter_cons_of_pos (by exact decide_eq_true hp2),
      List.filter_nil]
  simp only [parsePieces, parseOne_rollbackTo_name s hne hdig, parseOne_release_name s hne hdig]

theorem disconnectSql_not_savepoint (L : Int) (h : 1 ≤ L) :
    isSavepointCommand (disconnectRollbackSql L) = false := by
  obtain ⟨hne, hdig⟩ := intDec_pos_digits L h
  unfold isSavepointCommand disconnectRollbackSql
  rw [parseStatements_disconnect_sql (intDec L) hne hdig]
  rfl

theorem disconnectSql_invalidates_guard (L : Int) (h : 1 ≤ L) :
    commandInvalidatesGuardOnSuccess (disconnectRollbackSql L) = true := by
  obtain ⟨hne, hdig⟩ := intDec_pos_digits L h
  unfold commandInvalidatesGuardOnSuccess disconnectRollbackSql
  rw [parseStatements_disconnect_sql (intDec L) hne hdig]
  rfl

theorem safeExecTCL_disconnect (d : RealSessionDB) (bk : Backend) (o : Orc) (L : Int)
    (hL : 1 ≤ L) (htx : d.tx = true) (hab : bk.aborted = false)
    (hb : o.beginOk = true) (he : o.execOk = true) :
    d.SafeExecTCL bk o (disconnectRollbackSql L) =
      (d, { aborted := false }, [.spBegin, .spExec (disconnectRollbackSql L)], .ok o.tag) := by
  simp [RealSessionDB.SafeExecTCL, htx, hab, hb, he,
        disconnectSql_not_savepoint L hL, disconnectSql_invalidates_guard L hL]

theorem expectedDisconnectEvents_no_base (L : Int) (n : Nat) :
    (expectedDisconnectEvents L n).all (fun e => !e.isBaseSide) = true := by
  induction n generalizing L with
  | zero => rfl
  | succ k ih =>
    simp only [expectedDisconnectEvents, List.all_append, Bool.and_eq_true]
    exact ⟨rfl, ih (L - 1)⟩

theorem rollbackLoop_ok (o : Orc) (hb : o.beginOk = true) (he : o.execOk = true) :
    ∀ (n : Nat) (d : RealSessionDB) (bk : Backend), d.tx = true → bk.aborted = false →
      (n : Int) ≤ d.SavepointLevel →
      rollbackLoop d bk o n =
        ({ d with SavepointLevel := d.SavepointLevel - n }, ⟨false⟩,
         expectedDisconnectEvents d.SavepointLevel n, .ok ()) := by
  intro n
  induction n with
  | zero =>
    intro d bk htx hab _
    obtain rfl : bk = ⟨false⟩ := by cases bk; simp_all
    simp [rollbackLoop, expectedDisconnectEvents]
  | succ k ih =>
    intro d bk htx hab hn
    obtain rfl : bk = ⟨false⟩ := by cases bk; simp_all
    have hL : 1 ≤ d.SavepointLevel := by omega
    have hstep := safeExecTCL_disconnect { d with SavepointLevel := d.SavepointLevel - 1 }
        ⟨false⟩ o d.SavepointLevel hL htx rfl hb he
    have hih := ih { d with SavepointLevel := d.SavepointLevel - 1 } ⟨false⟩ htx rfl
        (by simp; omega)
    simp only [rollbackLoop]
    rw [if_neg (by omega)]
    rw [hstep]
    simp only [hih]
    simp only [expectedDisconnectEvents]
    refine congrArg₂ Prod.mk ?_ (congrArg₂ Prod.mk rfl (congrArg₂ Prod.mk (by simp) rfl))
    have harith : d.SavepointLevel - 1 - (k : Int) = d.SavepointLevel - ((k : Nat) + 1 : Nat) := by
      omega
    rw [harith]

/-! ## Claim C7 -/

/-- C7: on client disconnect with `n > 0` user-opened transactions
outstanding (and at least `n` savepoint levels open, as the claim
presupposes), `RollbackUserSavepointsOnDisconnect` issues exactly `n`
times the SQL `ROLLBACK TO SAVEPOINT pgrollback_v_L; RELEASE SAVEPOINT
pgrollback_v_L` at descending levels, each inside a guard savepoint,
decrementing the session savepoint level each time; the emitted backend
events never touch the base transaction or the raw connection; and with
`n ≤ 0` nothing is executed and no state changes. -/
theorem C7_disconnect_rolls_back_each_savepoint (d : RealSessionDB) (bk : Backend) (o : Orc)
    (n : Nat) (htx : d.tx = true) (hab : bk.aborted = false)
    (hb : o.beginOk = true) (he : o.execOk = true) (hn : (n : Int) ≤ d.SavepointLevel) :
    (0 < n →
      d.RollbackUserSavepointsOnDisconnect bk o n =
        ({ d with SavepointLevel := d.SavepointLevel - n }, ⟨false⟩,
         expectedDisconnectEvents d.SavepointLevel n, .ok ())) ∧
    (expectedDisconnectEvents d.SavepointLevel n).all (fun e => !e.isBaseSide) = true ∧
    (∀ c : Int, c ≤ 0 → d.RollbackUserSavepointsOnDisconnect bk o c = (d, bk, [], .ok ())) := by
  refine ⟨?_, expectedDisconnectEvents_no_base _ _, ?_⟩
  · intro hpos
    unfold RealSessionDB.RollbackUserSavepointsOnDisconnect
    rw [if_neg (by omega)]
    rw [show ((n : Int)).toNat = n by simp]
    exact rollbackLoop_ok o hb he n d bk htx hab hn
  · intro c hc
    unfold RealSessionDB.RollbackUserSavepointsOnDisconnect
    rw [if_pos hc]

/-- Witness for C7 at a concrete session (level 1) and count 1. -/
theorem C7_witness :
    dbLevelOneClaimed.RollbackUserSavepointsOnDisconnect ⟨false⟩ orcOkAll ((1 : Nat) : Int) =
      ({ dbLevelOneClaimed with
          SavepointLevel := dbLevelOneClaimed.SavepointLevel - ((1 : Nat) : Int) }, ⟨false⟩,
       expectedDisconnectEvents dbLevelOneClaimed.SavepointLevel 1, .ok ()) ∧
    dbLevelOneClaimed.RollbackUserSavepointsOnDisconnect ⟨false⟩ orcOkAll 0 =
      (dbLevelOneClaimed, ⟨false⟩, [], .ok ()) :=
  ⟨(C7_disconnect_rolls_back_each_savepoint dbLevelOneClaimed ⟨false⟩ orcOkAll 1
      (by decide) (by decide) (by decide) (by decide) (by decide)).1 (by decide),
   (C7_disconnect_rolls_back_each_savepoint dbLevelOneClaimed ⟨false⟩ orcOkAll 1
      (by decide) (by decide) (by decide) (by decide) (by decide)).2.2 0 (by decide)⟩

/-! ## Session-state projections of the guarded operations

These record that the execution paths never touch the session-state record
(they only talk to the backend), which the level-invariant and trace
theorems below build on. -/

theorem SafeExec_fst (d : RealSessionDB) (bk : Backend) (o : Orc) (sql : String) :
    (d.SafeExec bk o sql).1 = d := by
  unfold RealSessionDB.SafeExec
  repeat' split
  all_goals rfl

theorem SafeQuery_fst (d : RealSessionDB) (bk : Backend) (o : Orc) (sql : String) :
    (d.SafeQuery bk o sql).1 = d := by
  unfold RealSessionDB.SafeQuery
  repeat' split
  all_goals rfl

theorem SafeExecTCL_fst (d : RealSessionDB) (bk : Backend) (o : Orc) (sql : String) :
    (d.SafeExecTCL bk o sql).1 = d := by
  unfold RealSessionDB.SafeExecTCL
  repeat' split
  all_goals rfl

theorem Exec_fst (d : RealSessionDB) (bk : Backend) (o : Orc) (sql : String) :
    (d.Exec bk o sql).1 = d := by
  unfold RealSessionDB.Exec
  repeat' split
  all_goals rfl

theorem beginTx_level (d : RealSessionDB) (bk : Backend) (o : Orc) :
    ((d.beginTx bk o).1).SavepointLevel = d.SavepointLevel := by
  unfold RealSessionDB.beginTx
  repeat' split
  all_goals rfl

theorem rollbackTx_level (d : RealSessionDB) (bk : Backend) (o : Orc) :
    ((d.rollbackTx bk o).1).SavepointLevel = d.SavepointLevel := by
  unfold RealSessionDB.rollbackTx
  repeat' split
  all_goals rfl

theorem startNewTx_level (d : RealSessionDB) (bk : Backend) (o : Orc) :
    ((d.startNewTx bk o).1).SavepointLevel = d.SavepointLevel := by
  unfold RealSessionDB.startNewTx
  repeat' split
  all_goals rfl

theorem close_level (d : RealSessionDB) (bk : Backend) (o : Orc) :
    ((d.close bk o).1).SavepointLevel = d.SavepointLevel := by
  unfold RealSessionDB.close
  repeat' split
  all_goals rfl

theorem setLastQuery_level (d : RealSessionDB) (q : String) (now : Nat) :
    (d.SetLastQuery q now).SavepointLevel = d.SavepointLevel := by
  unfold RealSessionDB.SetLastQuery
  repeat' split
  all_goals rfl

theorem applyTCL_level (p : ProxyConnection) (q : String) (d : RealSessionDB) :
    (ApplyTCLSuccessTracking p q d).2.1.SavepointLevel = d.SavepointLevel ∨
    ((ApplyTCLSuccessTracking p q d).2.1.SavepointLevel = d.SavepointLevel + 1 ∧
      hasPfxS (trimS q) ("SAVEPOINT " ++ pgtestSavePfx) = true ∧
      extractSavepointNameFromQuery (trimS q) = d.GetNextSavepointName) ∨
    ((ApplyTCLSuccessTracking p q d).2.1.SavepointLevel = d.SavepointLevel - 1 ∧
      0 < d.SavepointLevel ∧
      hasPfxS (trimS q) ("RELEASE SAVEPOINT " ++ pgtestSavePfx) = true ∧
      extractSavepointNameFromQuery (trimS q) = d.GetSavepointName) := by
  unfold ApplyTCLSuccessTracking
  by_cases h0 : extractSavepointNameFromQuery (trimS q) = ""
  · left; rw [if_pos h0]
  rw [if_neg h0]
  by_cases h1 : hasPfxS (trimS q) ("SAVEPOINT " ++ pgtestSavePfx) = true
  · rw [if_pos h1]
    by_cases h2 : extractSavepointNameFromQuery (trimS q) ≠ d.GetNextSavepointName
    · left; rw [if_pos h2]
    · rw [if_neg h2]
      right; left
      push_neg at h2
      exact ⟨rfl, h1, h2⟩
  · rw [if_neg h1]
    by_cases h3 : containsSub q ("ROLLBACK TO SAVEPOINT " ++ pgtestSavePfx) = true
    · left; rw [if_pos h3]
    rw [if_neg h3]
    by_cases h4 : hasPfxS (trimS q) ("RELEASE SAVEPOINT " ++ pgtestSavePfx) = true
    · rw [if_pos h4]
      by_cases h5 : extractSavepointNameFromQuery (trimS q) ≠ d.GetSavepointName
      · left; rw [if_pos h5]
      rw [if_neg h5]
      push_neg at h5
      rcases hdec : p.DecrementUserOpenTransactionCount with e | p2
      · left; rfl
      · by_cases h6 : 0 < d.SavepointLevel
        · right; right
          refine ⟨?_, h6, h4, h5⟩
          simp only [RealSessionDB.DecrementSavepointLevel,
            RealSessionDB.ReleaseOpenTransaction, if_pos h6]
          repeat' split
          all_goals rfl
        · left
          simp only [RealSessionDB.DecrementSavepointLevel,
            RealSessionDB.ReleaseOpenTransaction, if_neg h6]
          repeat' split
          all_goals rfl
    · left; rw [if_neg h4]

theorem applyTCL_level_nonneg (p : ProxyConnection) (q : String) (d : RealSessionDB)
    (h : 0 ≤ d.SavepointLevel) :
    0 ≤ (ApplyTCLSuccessTracking p q d).2.1.SavepointLevel := by
  rcases applyTCL_level p q d with h1 | ⟨h1, -⟩ | ⟨h1, h2, -⟩ <;> omega

theorem rollbackLoop_level_nonneg (o : Orc) :
    ∀ (fuel : Nat) (d : RealSessionDB) (bk : Backend), 0 ≤ d.SavepointLevel →
      0 ≤ (rollbackLoop d bk o fuel).1.SavepointLevel := by
  intro fuel
  induction fuel with
  | zero => intro d bk h; exact h
  | succ k ih =>
    intro d bk h
    simp only [rollbackLoop]
    split
    · exact h
    next hpos =>
      split
      next d2 bk2 evs e heq =>
        have : d2 = { d with SavepointLevel := d.SavepointLevel - 1 } := by
          have h2 := SafeExecTCL_fst { d with SavepointLevel := d.SavepointLevel - 1 } bk o
            (disconnectRollbackSql d.SavepointLevel)
          rw [heq] at h2
          exact h2
        rw [this]
        simp
        omega
      next d2 bk2 evs a heq =>
        have hd2 : d2 = { d with SavepointLevel := d.SavepointLevel - 1 } := by
          have h2 := SafeExecTCL_fst { d with SavepointLevel := d.SavepointLevel - 1 } bk o
            (disconnectRollbackSql d.SavepointLevel)
          rw [heq] at h2
          exact h2
        subst hd2
        exact ih _ bk2 (by simp; omega)

theorem handleBegin_fst (d : RealSessionDB) (c : Nat) (r : RealSessionDB × String)
    (h : d.handleBegin c = .ok r) : r.1 = d := by
  unfold RealSessionDB.handleBegin at h
  repeat' split at h
  all_goals first
    | exact Except.noConfusion h
    | (injection h with h2; rw [← h2])

theorem ClaimOpenTransaction_level (d : RealSessionDB) (c : Nat) (d2 : RealSessionDB)
    (h : d.ClaimOpenTransaction c = .ok d2) : d2.SavepointLevel = d.SavepointLevel := by
  unfold RealSessionDB.ClaimOpenTransaction at h
  split at h
  · exact absurd h (by simp)
  · cases h; rfl

theorem ReleaseOpenTransaction_level (d : RealSessionDB) (c : Nat) :
    (d.ReleaseOpenTransaction c).SavepointLevel = d.SavepointLevel := by
  unfold RealSessionDB.ReleaseOpenTransaction
  split <;> rfl

theorem step_level_nonneg (st : PState) (op : Op) (o : Orc)
    (h : 0 ≤ st.db.SavepointLevel) : 0 ≤ (step st op o).1.db.SavepointLevel := by
  cases op with
  | opBeginTx => simpa [step, liftDb, beginTx_level] using h
  | opRollbackTx => simpa [step, liftDb, rollbackTx_level] using h
  | opStartNewTx => simpa [step, liftDb, startNewTx_level] using h
  | opClose => simpa [step, liftDb, close_level] using h
  | opSafeExec sql => simpa [step, liftDb, SafeExec_fst] using h
  | opSafeQuery sql => simpa [step, liftDb, SafeQuery_fst] using h
  | opSafeExecTCL sql => simpa [step, liftDb, SafeExecTCL_fst] using h
  | opExec sql => simpa [step, liftDb, Exec_fst] using h
  | opCommitSavePoint => simpa [step, liftDb, commitSavePoint] using h
  | opExecGuard nm sql => simpa [step] using h
  | opHandleBegin c =>
    simp only [step]
    split
    · next d2 s heq =>
      have h2 : d2 = st.db := handleBegin_fst st.db c (d2, s) heq
      simpa [h2] using h
    · exact h
  | opHandleCommit => exact h
  | opHandleRollback => exact h
  | opClaim c =>
    simp only [step]
    split
    · next d2 heq => simpa [ClaimOpenTransaction_level st.db c d2 heq] using h
    · exact h
  | opRelease c => simpa [step, ReleaseOpenTransaction_level] using h
  | opIncrementLevel =>
    simp only [step, RealSessionDB.IncrementSavepointLevel]
    omega
  | opDecrementLevel =>
    simp only [step, RealSessionDB.DecrementSavepointLevel]
    split
    · simp only []
      omega
    · exact h
  | opIncrementCount => exact h
  | opDecrementCount =>
    simp only [step]
    split <;> exact h
  | opApplyTCL q => exact applyTCL_level_nonneg st.conn1 q st.db h
  | opDisconnectRollback count =>
    simp only [step, liftDb, RealSessionDB.RollbackUserSavepointsOnDisconnect]
    split
    · exact h
    · exact rollbackLoop_level_nonneg o count.toNat st.db st.bk h
  | opAcquireAdvisoryLock =>
    simp only [step, liftDb, RealSessionDB.acquireAdvisoryLock]
    split <;> exact h
  | opReleaseAdvisoryLock =>
    simp only [step, liftDb, RealSessionDB.releaseAdvisoryLock]
    split <;> exact h
  | opSetLastQuery q now => simpa [step, setLastQuery_level] using h

theorem runOps_level_nonneg :
    ∀ (ops : List (Op × Orc)) (st : PState), 0 ≤ st.db.SavepointLevel →
      0 ≤ (runOps st ops).1.db.SavepointLevel := by
  intro ops
  induction ops with
  | nil => intro st h; exact h
  | cons p rest ih =>
    intro st h
    exact ih _ (step_level_nonneg st p.1 p.2 h)

theorem safeExecTCL_disconnect_fail (d : RealSessionDB) (bk : Backend) (o : Orc) (L : Int)
    (hL : 1 ≤ L) (htx : d.tx = true) (hab : bk.aborted = false)
    (hb : o.beginOk = true) (he : o.execOk = false) (hr : o.rollbackOk = true) :
    d.SafeExecTCL bk o (disconnectRollbackSql L) =
      (d, { aborted := false },
       [.spBegin, .spExec (disconnectRollbackSql L), .spRollback],
       .error (.wrap "Safe exec failed" o.errVal)) := by
  simp [RealSessionDB.SafeExecTCL, htx, hab, hb, he, hr, disconnectSql_not_savepoint L hL]

theorem rollbackLoop_one_fail (d : RealSessionDB) (bk : Backend) (o : Orc)
    (htx : d.tx = true) (hab : bk.aborted = false) (hb : o.beginOk = true)
    (he : o.execOk = false) (hr : o.rollbackOk = true) (hL : 1 ≤ d.SavepointLevel) :
    rollbackLoop d bk o 1 =
      ({ d with SavepointLevel := d.SavepointLevel - 1 }, { aborted := false },
       [.spBegin, .spExec (disconnectRollbackSql d.SavepointLevel), .spRollback],
       .error (.wrap "Safe exec failed" o.errVal)) := by
  have hstep := safeExecTCL_disconnect_fail { d with SavepointLevel := d.SavepointLevel - 1 }
      bk o d.SavepointLevel hL htx hab hb he hr
  show rollbackLoop d bk o (Nat.succ 0) = _
  simp only [rollbackLoop]
  rw [if_neg (by omega)]
  rw [hstep]

/-! ## Claim C6 -/

/-- C6 counterexample: in the disconnect path
(`RollbackUserSavepointsOnDisconnect`) the savepoint level is decremented
before the rollback SQL is executed.  With the backend rejecting the
command the call returns an error — the backend never confirmed any
RELEASE or ROLLBACK TO — yet the session's level has dropped from 1 to 0,
refuting "decremented only after the backend has confirmed the matching
RELEASE or ROLLBACK TO of the current name". -/
theorem C6_counterexample :
    (dbLevelOneClaimed.RollbackUserSavepointsOnDisconnect ⟨false⟩ orcExecFails 1).1.SavepointLevel
      = 0 ∧
    (dbLevelOneClaimed.RollbackUserSavepointsOnDisconnect ⟨false⟩ orcExecFails 1).2.2.2
      = .error (.wrap "Safe exec failed" (.msg "boom")) := by
  decide

/-- C6 amended: the savepoint level starts at 0, stays non-negative under
every operation sequence, and is never changed by the rewrite step
(`handleBegin` returns the session unchanged; `handleCommit` and
`handleRollback` only build SQL strings); the tracking callback
(`ApplyTCLSuccessTracking`) changes the level only after a confirmed
`SAVEPOINT` whose extracted name equals the expected next name (increment)
or a confirmed `RELEASE` whose extracted name equals the current name
(decrement) — but in the disconnect path the level is decremented before
the backend executes the matching rollback SQL (last conjunct: the level
has dropped even when the backend rejects the command). -/
theorem C6_savepoint_level_discipline :
    (∀ conn tx : Bool, (newSessionDB conn tx).SavepointLevel = 0) ∧
    (∀ (st : PState) (ops : List (Op × Orc)), 0 ≤ st.db.SavepointLevel →
      0 ≤ (runOps st ops).1.db.SavepointLevel) ∧
    (∀ (d : RealSessionDB) (c : Nat) (r : RealSessionDB × String),
      d.handleBegin c = .ok r → r.1.SavepointLevel = d.SavepointLevel) ∧
    (∀ (p : ProxyConnection) (q : String) (d : RealSessionDB),
      (ApplyTCLSuccessTracking p q d).2.1.SavepointLevel = d.SavepointLevel ∨
      ((ApplyTCLSuccessTracking p q d).2.1.SavepointLevel = d.SavepointLevel + 1 ∧
        hasPfxS (trimS q) ("SAVEPOINT " ++ pgtestSavePfx) = true ∧
        extractSavepointNameFromQuery (trimS q) = d.GetNextSavepointName) ∨
      ((ApplyTCLSuccessTracking p q d).2.1.SavepointLevel = d.SavepointLevel - 1 ∧
        0 < d.SavepointLevel ∧
        hasPfxS (trimS q) ("RELEASE SAVEPOINT " ++ pgtestSavePfx) = true ∧
        extractSavepointNameFromQuery (trimS q) = d.GetSavepointName)) ∧
    (∀ (d : RealSessionDB) (bk : Backend) (o : Orc),
      d.tx = true → bk.aborted = false → o.beginOk = true → o.execOk = false →
      o.rollbackOk = true → 1 ≤ d.SavepointLevel →
      (d.RollbackUserSavepointsOnDisconnect bk o 1).1.SavepointLevel
        = d.SavepointLevel - 1 ∧
      (d.RollbackUserSavepointsOnDisconnect bk o 1).2.2.2 =
        .error (.wrap "Safe exec failed" o.errVal)) := by
  refine ⟨fun conn tx => rfl, fun st ops h => runOps_level_nonneg ops st h,
    fun d c r h => by rw [handleBegin_fst d c r h], applyTCL_level, ?_⟩
  intro d bk o htx hab hb he hr hL
  have hloop := rollbackLoop_one_fail d bk o htx hab hb he hr hL
  unfold RealSessionDB.RollbackUserSavepointsOnDisconnect
  rw [if_neg (by omega)]
  rw [show (1 : Int).toNat = 1 from rfl]
  rw [hloop]
  exact ⟨rfl, rfl⟩

/-- Witness for C6 amended at a concrete state, operation sequence, query
and disconnect call. -/
theorem C6_witness :
    0 ≤ (runOps pstInit
      [(Op.opIncrementLevel, orcOkAll), (Op.opDecrementLevel, orcOkAll),
       (Op.opDecrementLevel, orcOkAll)]).1.db.SavepointLevel ∧
    ((ApplyTCLSuccessTracking connSeven "RELEASE SAVEPOINT pgrollback_v_1"
        dbLevelOneClaimed).2.1.SavepointLevel = dbLevelOneClaimed.SavepointLevel ∨
      ((ApplyTCLSuccessTracking connSeven "RELEASE SAVEPOINT pgrollback_v_1"
        dbLevelOneClaimed).2.1.SavepointLevel = dbLevelOneClaimed.SavepointLevel + 1 ∧
        hasPfxS (trimS "RELEASE SAVEPOINT pgrollback_v_1")
          ("SAVEPOINT " ++ pgtestSavePfx) = true ∧
        extractSavepointNameFromQuery (trimS "RELEASE SAVEPOINT pgrollback_v_1")
          = dbLevelOneClaimed.GetNextSavepointName) ∨
      ((ApplyTCLSuccessTracking connSeven "RELEASE SAVEPOINT pgrollback_v_1"
        dbLevelOneClaimed).2.1.SavepointLevel = dbLevelOneClaimed.SavepointLevel - 1 ∧
        0 < dbLevelOneClaimed.SavepointLevel ∧
        hasPfxS (trimS "RELEASE SAVEPOINT pgrollback_v_1")
          ("RELEASE SAVEPOINT " ++ pgtestSavePfx) = true ∧
        extractSavepointNameFromQuery (trimS "RELEASE SAVEPOINT pgrollback_v_1")
          = dbLevelOneClaimed.GetSavepointName)) ∧
    (dbLevelOneClaimed.RollbackUserSavepointsOnDisconnect ⟨false⟩ orcExecFails 1).1.SavepointLevel
      = dbLevelOneClaimed.SavepointLevel - 1 :=
  ⟨C6_savepoint_level_discipline.2.1 pstInit
      [(Op.opIncrementLevel, orcOkAll), (Op.opDecrementLevel, orcOkAll),
       (Op.opDecrementLevel, orcOkAll)] (by decide),
   C6_savepoint_level_discipline.2.2.2.1 connSeven "RELEASE SAVEPOINT pgrollback_v_1"
      dbLevelOneClaimed,
   (C6_savepoint_level_discipline.2.2.2.2 dbLevelOneClaimed ⟨false⟩ orcExecFails
      (by decide) (by decide) (by decide) (by decide) (by decide) (by decide)).1⟩

/-! ## Backend-trace lemmas: no operation ever commits the base transaction -/

theorem noBaseCommit_SafeExec (d : RealSessionDB) (bk : Backend) (o : Orc) (sql : String) :
    ((d.SafeExec bk o sql).2.2.1.all fun e => !e.isBaseCommit) = true := by
  unfold RealSessionDB.SafeExec
  repeat' split
  all_goals rfl

theorem noBaseCommit_SafeQuery (d : RealSessionDB) (bk : Backend) (o : Orc) (sql : String) :
    ((d.SafeQuery bk o sql).2.2.1.all fun e => !e.isBaseCommit) = true := by
  unfold RealSessionDB.SafeQuery
  repeat' split
  all_goals rfl

theorem noBaseCommit_SafeExecTCL (d : RealSessionDB) (bk : Backend) (o : Orc) (sql : String) :
    ((d.SafeExecTCL bk o sql).2.2.1.all fun e => !e.isBaseCommit) = true := by
  unfold RealSessionDB.SafeExecTCL
  repeat' split
  all_goals rfl

theorem noBaseCommit_Exec (d : RealSessionDB) (bk : Backend) (o : Orc) (sql : String) :
    ((d.Exec bk o sql).2.2.1.all fun e => !e.isBaseCommit) = true := by
  unfold RealSessionDB.Exec
  repeat' split
  all_goals rfl

theorem noBaseCommit_execGuard (bk : Backend) (o : Orc) (nm sql : String) :
    ((execQuerySafeSavepoint bk o nm sql).2.1.all fun e => !e.isBaseCommit) = true := by
  unfold execQuerySafeSavepoint
  repeat' split
  all_goals rfl

theorem noBaseCommit_beginTx (d : RealSessionDB) (bk : Backend) (o : Orc) :
    ((d.beginTx bk o).2.2.1.all fun e => !e.isBaseCommit) = true := by
  unfold RealSessionDB.beginTx
  repeat' split
  all_goals rfl

theorem noBaseCommit_rollbackTx (d : RealSessionDB) (bk : Backend) (o : Orc) :
    ((d.rollbackTx bk o).2.2.1.all fun e => !e.isBaseCommit) = true := by
  unfold RealSessionDB.rollbackTx
  repeat' split
  all_goals rfl

theorem noBaseCommit_startNewTx (d : RealSessionDB) (bk : Backend) (o : Orc) :
    ((d.startNewTx bk o).2.2.1.all fun e => !e.isBaseCommit) = true := by
  unfold RealSessionDB.startNewTx
  repeat' split
  all_goals rfl

theorem noBaseCommit_close (d : RealSessionDB) (bk : Backend) (o : Orc) :
    ((d.close bk o).2.2.1.all fun e => !e.isBaseCommit) = true := by
  unfold RealSessionDB.close
  repeat' split
  all_goals rfl

theorem noBaseCommit_rollbackLoop (o : Orc) :
    ∀ (fuel : Nat) (d : RealSessionDB) (bk : Backend),
      ((rollbackLoop d bk o fuel).2.2.1.all fun e => !e.isBaseCommit) = true := by
  intro fuel
  induction fuel with
  | zero => intro d bk; rfl
  | succ k ih =>
    intro d bk
    simp only [rollbackLoop]
    split
    · rfl
    · split
      next d2 bk2 evs e heq =>
        have hevs : (({ d with SavepointLevel := d.SavepointLevel - 1 } :
            RealSessionDB).SafeExecTCL bk o
            (disconnectRollbackSql d.SavepointLevel)).2.2.1 = evs := by rw [heq]
        show (evs.all fun e => !e.isBaseCommit) = true
        rw [← hevs]
        exact noBaseCommit_SafeExecTCL _ _ _ _
      next d2 bk2 evs a heq =>
        have hevs : (({ d with SavepointLevel := d.SavepointLevel - 1 } :
            RealSessionDB).SafeExecTCL bk o
            (disconnectRollbackSql d.SavepointLevel)).2.2.1 = evs := by rw [heq]
        show ((evs ++ (rollbackLoop d2 bk2 o k).2.2.1).all fun e => !e.isBaseCommit) = true
        rw [List.all_append, Bool.and_eq_true]
        refine ⟨?_, ih d2 bk2⟩
        rw [← hevs]
        exact noBaseCommit_SafeExecTCL _ _ _ _

theorem step_noBaseCommit (st : PState) (op : Op) (o : Orc) :
    ((step st op o).2.all fun e => !e.isBaseCommit) = true := by
  cases op with
  | opBeginTx => exact noBaseCommit_beginTx st.db st.bk o
  | opRollbackTx => exact noBaseCommit_rollbackTx st.db st.bk o
  | opStartNewTx => exact noBaseCommit_startNewTx st.db st.bk o
  | opClose => exact noBaseCommit_close st.db st.bk o
  | opSafeExec sql => exact noBaseCommit_SafeExec st.db st.bk o sql
  | opSafeQuery sql => exact noBaseCommit_SafeQuery st.db st.bk o sql
  | opSafeExecTCL sql => exact noBaseCommit_SafeExecTCL st.db st.bk o sql
  | opExec sql => exact noBaseCommit_Exec st.db st.bk o sql
  | opCommitSavePoint => rfl
  | opExecGuard nm sql => exact noBaseCommit_execGuard st.bk o nm sql
  | opHandleBegin c =>
    simp only [step]
    split <;> rfl
  | opHandleCommit => rfl
  | opHandleRollback => rfl
  | opClaim c =>
    simp only [step]
    split <;> rfl
  | opRelease c => rfl
  | opIncrementLevel => rfl
  | opDecrementLevel => rfl
  | opIncrementCount => rfl
  | opDecrementCount =>
    simp only [step]
    split <;> rfl
  | opApplyTCL q => rfl
  | opDisconnectRollback count =>
    simp only [step, liftDb, RealSessionDB.RollbackUserSavepointsOnDisconnect]
    split
    · rfl
    · exact noBaseCommit_rollbackLoop o count.toNat st.db st.bk
  | opAcquireAdvisoryLock =>
    simp only [step, liftDb, RealSessionDB.acquireAdvisoryLock]
    split <;> rfl
  | opReleaseAdvisoryLock =>
    simp only [step, liftDb, RealSessionDB.releaseAdvisoryLock]
    split <;> rfl
  | opSetLastQuery q now => rfl

/-! ## Claim C1 -/

/-- C1: over every session lifetime — every sequence of proxy operations
(base-transaction lifecycle, guarded data execution, TCL rewriting and
tracking, disconnect rollback, full-session rollback, close) under every
backend oracle — the backend event trace contains no commit of the base
transaction; every commit event in the trace is a release of an inner
guard savepoint.  The base transaction is only ever begun
(`Event.baseBegin`) and rolled back (`Event.baseRollback`), matching the
rewriters, which never forward a client COMMIT as a backend commit. -/
theorem C1_base_transaction_never_committed (st : PState) (ops : List (Op × Orc)) :
    ((runOps st ops).2.all fun e => !e.isBaseCommit) = true ∧
    ((runOps st ops).2.all fun e => !e.isCommit || decide (e = Event.spCommit)) = true := by
  have hmain : ∀ (ops : List (Op × Orc)) (st : PState),
      ((runOps st ops).2.all fun e => !e.isBaseCommit) = true := by
    intro ops
    induction ops with
    | nil => intro st; rfl
    | cons p rest ih =>
      intro st
      simp only [runOps, List.all_append, Bool.and_eq_true]
      exact ⟨step_noBaseCommit st p.1 p.2, ih _⟩
  refine ⟨hmain ops st, ?_⟩
  have h1 := hmain ops st
  rw [List.all_eq_true] at h1 ⊢
  intro e he
  have h2 := h1 e he
  cases e <;> simp_all [Event.isBaseCommit, Event.isCommit]

/-! ## Claim C9 -/

theorem lastN_append_lastN (n : Nat) (a b : List α) :
    lastN n (lastN n a ++ b) = lastN n (a ++ b) := by
  unfold lastN
  rw [List.length_append, List.length_append, List.length_drop]
  rw [List.drop_append_eq_append_drop, List.drop_append_eq_append_drop]
  rw [List.drop_drop, List.length_drop]
  congr 2 <;> omega

theorem runHistory_closed (qs : List (String × Nat)) :
    ∀ d : RealSessionDB, d.queryHistory.length ≤ maxQueryHistory →
      (runHistory d qs).queryHistory =
        lastN maxQueryHistory
          (d.queryHistory ++ ((qs.filter fun p => !isInternalNoiseQuery p.1).map histEntry)) := by
  induction qs with
  | nil =>
    intro d h
    show d.queryHistory = lastN maxQueryHistory (d.queryHistory ++ [])
    unfold lastN
    rw [List.append_nil]
    rw [show d.queryHistory.length - maxQueryHistory = 0 by omega]
    rw [List.drop_zero]
  | cons p rest ih =>
    intro d h
    by_cases hn : isInternalNoiseQuery p.1 = true
    · rw [show runHistory d (p :: rest) = runHistory (d.SetLastQuery p.1 p.2) rest from rfl]
      rw [show d.SetLastQuery p.1 p.2 = d by unfold RealSessionDB.SetLastQuery; rw [if_pos hn]]
      rw [List.filter_cons_of_neg (by simp [hn])]
      exact ih d h
    · rw [show runHistory d (p :: rest) = runHistory (d.SetLastQuery p.1 p.2) rest from rfl]
      have hif : d.SetLastQuery p.1 p.2 =
          { d with queryHistory := if maxQueryHistory < (d.queryHistory ++ [histEntry p]).length
            then (d.queryHistory ++ [histEntry p]).tail else d.queryHistory ++ [histEntry p] } := by
        unfold RealSessionDB.SetLastQuery
        rw [if_neg hn]
        rfl
      have hfield : (if maxQueryHistory < (d.queryHistory ++ [histEntry p]).length
            then (d.queryHistory ++ [histEntry p]).tail else d.queryHistory ++ [histEntry p])
          = lastN maxQueryHistory (d.queryHistory ++ [histEntry p]) := by
        unfold lastN
        by_cases hlen : maxQueryHistory < (d.queryHistory ++ [histEntry p]).length
        · rw [if_pos hlen]
          rw [show (d.queryHistory ++ [histEntry p]).length - maxQueryHistory = 1 by
            simp at hlen ⊢; omega]
          rw [List.drop_one]
        · rw [if_neg hlen]
          rw [show (d.queryHistory ++ [histEntry p]).length - maxQueryHistory = 0 by
            simp at hlen ⊢; omega]
          rw [List.drop_zero]
      rw [hif, hfield]
      rw [ih _ (by
        show (lastN maxQueryHistory _).length ≤ maxQueryHistory
        unfold lastN
        rw [List.length_drop]
        omega)]
      rw [show ({ d with
          queryHistory := lastN maxQueryHistory (d.queryHistory ++ [histEntry p]) } :
          RealSessionDB).queryHistory =
          lastN maxQueryHistory (d.queryHistory ++ [histEntry p]) from rfl]
      rw [lastN_append_lastN]
      rw [List.filter_cons_of_pos (by simp [hn])]
      simp [List.append_assoc]

/-- C9: query-history shape.  Running any sequence of `SetLastQuery` calls
from a history within the cap yields exactly the newest `maxQueryHistory`
(100) entries, in execution order (oldest first), of the non-noise queries
appended; so noise (empty statements, DEALLOCATE — both the parsed and the
fallback detection) is never appended, append is the only growing
mutation, and the history never exceeds 100 entries, dropping the oldest
when an append would exceed the cap. -/
theorem C9_query_history_filtered_capped (d : RealSessionDB) (qs : List (String × Nat))
    (h : d.queryHistory.length ≤ maxQueryHistory) :
    (runHistory d qs).queryHistory =
      lastN maxQueryHistory
        (d.queryHistory ++ ((qs.filter fun p => !isInternalNoiseQuery p.1).map histEntry)) ∧
    (runHistory d qs).queryHistory.length ≤ maxQueryHistory ∧
    isInternalNoiseQuery "" = true ∧
    isInternalNoiseQuery "   " = true ∧
    isInternalNoiseQuery "DEALLOCATE pdo_stmt_00000001" = true ∧
    isInternalNoiseQuery "DEALLOCATE ALL" = true ∧
    isInternalNoiseQuery "DEALLOCATE" = true ∧
    isInternalNoiseQuery "SELECT 1" = false := by
  refine ⟨runHistory_closed qs d h, ?_, by decide, by decide, by decide, by decide,
    by decide, by decide⟩
  rw [runHistory_closed qs d h]
  unfold lastN
  rw [List.length_drop]
  omega

/-- Witness for C9 at a concrete session and query sequence. -/
theorem C9_witness :
    (runHistory (newSessionDB true true)
        [("SELECT 1", 0), ("DEALLOCATE ALL", 1), ("", 2)]).queryHistory =
      lastN maxQueryHistory
        ((newSessionDB true true).queryHistory ++
          (([("SELECT 1", 0), ("DEALLOCATE ALL", 1), ("", 2)].filter
            fun p => !isInternalNoiseQuery p.1).map histEntry)) ∧
    isInternalNoiseQuery "DEALLOCATE pdo_stmt_00000001" = true :=
  ⟨(C9_query_history_filtered_capped (newSessionDB true true)
      [("SELECT 1", 0), ("DEALLOCATE ALL", 1), ("", 2)] (by decide)).1,
   (C9_query_history_filtered_capped (newSessionDB true true)
      [("SELECT 1", 0), ("DEALLOCATE ALL", 1), ("", 2)] (by decide)).2.2.2.2.1⟩

end PgRollback
